import Mathlib

/-!
# Gov_Oversight RFP monitor backend: shallow embedding and verification

This file embeds the core Python backend of the Gov_Oversight repository
(`src/backend`) into Lean 4 and proves properties of the embedded code.

Modelling conventions, used throughout:

* Python `str` is Lean `String`; all inputs considered are ASCII, so Python's
  Unicode-aware lowercasing and `\w` classes coincide with their ASCII
  restrictions used here.
* Python `float` is modelled as `ℚ` with the exact decimal constants of the
  source.  Every comparison performed by the code happens far from the floating
  point rounding error of these constants (the score lattice has spacing
  ≥ 1/40 while double rounding error is < 10⁻¹⁵), so the rational model decides
  every comparison exactly as the float code does.
* `datetime` values are modelled as integer seconds; `timedelta.days` is
  floor division by 86400 (`Int.fdiv`).  `datetime.now()` is passed in
  explicitly as a `now : Int` parameter, and `datetime.fromisoformat` (an
  external library routine) as a `parseDate : String → Option Int` parameter.
* Cryptographic digests (`hashlib.sha256(...).hexdigest()`,
  `hashlib.md5(...).hexdigest()[:16]`) are modelled by their preimage string:
  the code only ever compares digests for equality, and the model reflects the
  standard collision-freeness assumption.  Two digests are equal in the model
  iff the hashed content strings are equal.
* Python `dict` with string keys is an association list without duplicate
  keys; `dict.get` is first-match lookup and `d[k] = v` replaces in place
  (or appends).  Python's nondeterministic `set` iteration order is modelled
  as first-occurrence order; the claims below only depend on membership and
  counts, never on that order.
* `list.sort` (Timsort, stable) is modelled by a stable insertion sort
  (`sortLe` below); the claims only depend on sortedness and membership.
-/

namespace GovOversight

/-! ## Generic list/string helpers -/

/-- Stable insertion into a list ordered by the boolean relation `le`:
the new element goes in front of the first strictly later element. -/
def insertLe {α : Type} (le : α → α → Bool) (x : α) : List α → List α
  | [] => [x]
  | y :: ys => if le x y then x :: y :: ys else y :: insertLe le x ys

/-- Stable insertion sort by the boolean relation `le`; model of Python's
stable `list.sort` / `sorted`. -/
def sortLe {α : Type} (le : α → α → Bool) : List α → List α
  | [] => []
  | x :: xs => insertLe le x (sortLe le xs)

/-- ASCII lowercasing; model of Python `str.lower()` on the ASCII inputs in
scope here. -/
def pyLower (s : String) : String := String.mk (s.data.map Char.toLower)

/-- Substring test on character lists. -/
def strContainsCore (n : List Char) : List Char → Bool
  | [] => n.isEmpty
  | c :: t => n.isPrefixOf (c :: t) || strContainsCore n t

/-- Python's `needle in hay` substring containment for strings. -/
def strContains (hay needle : String) : Bool :=
  strContainsCore needle.data hay.data

/-- Lexicographic code-point comparison of character lists. -/
def lexLe : List Char → List Char → Bool
  | [], _ => true
  | _ :: _, [] => false
  | a :: as, b :: bs =>
    if a.toNat < b.toNat then true
    else if b.toNat < a.toNat then false
    else lexLe as bs

/-- Python string `<=` (code-point lexicographic); used for `sorted`/`sort_keys`. -/
def strLe (a b : String) : Bool := lexLe a.data b.data

/-! ## Association lists: Python `dict` with string keys -/

/-- `d.get(k)`: value of the first entry with key `k`. -/
def getField (fields : List (String × String)) (k : String) : Option String :=
  (fields.find? (fun p => p.1 == k)).map (·.2)

/-- `d.get(k, default)`. -/
def getFieldD (fields : List (String × String)) (k d : String) : String :=
  (getField fields k).getD d

/-- `d[k] = v`: replace the entry for `k` in place, appending if absent. -/
def setField (fields : List (String × String)) (k v : String) : List (String × String) :=
  match fields with
  | [] => [(k, v)]
  | (k0, v0) :: t => if k0 == k then (k, v) :: t else (k0, v0) :: setField t k v

/-- Key list of an association list. -/
def fieldKeys (fields : List (String × String)) : List String := fields.map (·.1)

/-- First-occurrence deduplication; model of iterating a Python `dict`'s keys
(and of the `set` iterations in the change detector, whose order the claims
never depend on). -/
def dedupFirst : List String → List String
  | [] => []
  | x :: t => x :: (dedupFirst t).filter (fun y => ¬ y == x)

/-! ## `models/site_config.py` -/

/-- `DataType` enumeration (`site_config.py`). -/
inductive DataType
  | text
  | date
  | currency
  | number
  | url
  | email
deriving DecidableEq, Repr

/-- `SiteStatus` enumeration (`site_config.py`). -/
inductive SiteStatus
  | active
  | error
  | testing
  | disabled
deriving DecidableEq, Repr

/-- `FieldMapping` dataclass (`site_config.py`).  The Python field `alias` is a
reserved word in Lean and is rendered `field_alias`; the unused presentation
fields (`xpath`, `regex_pattern`, `last_validated`, `expected_format`) are
omitted.  `__post_init__`'s `None → []` defaulting is reflected by the
defaults here. -/
structure FieldMapping where
  field_alias : String
  selector : String
  data_type : DataType
  training_value : String
  confidence_score : ℚ := 1.0
  fallback_selectors : List String := []
  validation_errors : List String := []
deriving DecidableEq, Repr

namespace FieldMapping

/-- `FieldMapping.is_valid` (`site_config.py` lines 64–70).  The source's
third conjunct `self.selector is not None` is vacuous here because the
dataclass declares `selector: str` (never `None`). -/
def is_valid (m : FieldMapping) : Bool :=
  decide (m.confidence_score > 0.5) && m.validation_errors.isEmpty

/-- `FieldMapping.add_validation_error` (`site_config.py` lines 72–78). -/
def add_validation_error (m : FieldMapping) (error : String) : FieldMapping :=
  { m with
    validation_errors := m.validation_errors ++ [error],
    confidence_score := max 0.0 (m.confidence_score - 0.2) }

/-- `FieldMapping.clear_validation_errors` (`site_config.py` lines 80–84). -/
def clear_validation_errors (m : FieldMapping) : FieldMapping :=
  { m with
    validation_errors := [],
    confidence_score := min 1.0 (m.confidence_score + 0.3) }

end FieldMapping

/-- `SiteConfig` dataclass (`site_config.py`), restricted to the fields the
embedded operations read.  `last_test`/`last_scrape` timestamps are modelled
as optional integer seconds. -/
structure SiteConfig where
  id : String
  name : String
  base_url : String
  main_rfp_page_url : String
  sample_rfp_url : String
  field_mappings : List FieldMapping
  status : SiteStatus := SiteStatus.testing
  last_test : Option Int := none
deriving DecidableEq, Repr

namespace SiteConfig

/-- `SiteConfig.is_healthy` (`site_config.py` lines 237–244): requires the
site status to be `ACTIVE`, then compares the number of valid field mappings
against `len(field_mappings) * 0.8`. -/
def is_healthy (s : SiteConfig) : Bool :=
  if s.status ≠ SiteStatus.active then false
  else
    decide (((s.field_mappings.filter FieldMapping.is_valid).length : ℚ) ≥
      (s.field_mappings.length : ℚ) * 0.8)

end SiteConfig

/-- The health predicate exactly as claim C4 states it: the fraction of field
mappings "whose status is not broken and whose confidence_score is greater
than 0.5" is at least 0.8.  The implementation's `FieldMapping` has no
status attribute at all, so the "status is not broken" conjunct has no code
counterpart and is omitted here; the counterexample below uses a fresh
mapping that satisfies it under any reading. -/
def is_healthy_claimC4 (s : SiteConfig) : Bool :=
  decide (((s.field_mappings.filter
      (fun m => decide (m.confidence_score > 0.5))).length : ℚ) ≥
    (s.field_mappings.length : ℚ) * 0.8)

/-- A fresh, fully working field mapping on a site whose status is still
`TESTING` (the dataclass default): the claim's ratio is 1 ≥ 0.8 yet
`is_healthy` answers `false`. -/
def cfgC4x : SiteConfig :=
  { id := "la28_procurement"
    name := "LA28 Procurement"
    base_url := "https://example.gov"
    main_rfp_page_url := "https://example.gov/rfps"
    sample_rfp_url := "https://example.gov/rfps/1"
    field_mappings := [{ field_alias := "status", selector := ".rfp-status",
                         data_type := DataType.text, training_value := "Active",
                         confidence_score := 0.9 }]
    status := SiteStatus.testing }

/-- An `ACTIVE` site with four valid mappings out of five. -/
def cfgC4w : SiteConfig :=
  { cfgC4x with
    status := SiteStatus.active
    field_mappings :=
      [{ field_alias := "status", selector := ".rfp-status",
         data_type := DataType.text, training_value := "Active" },
       { field_alias := "title", selector := ".rfp-title",
         data_type := DataType.text, training_value := "Security RFP" },
       { field_alias := "closing_date", selector := ".rfp-close",
         data_type := DataType.date, training_value := "2025-01-15" },
       { field_alias := "contract_value", selector := ".rfp-value",
         data_type := DataType.currency, training_value := "$50,000" },
       { field_alias := "issuer", selector := ".rfp-issuer",
         data_type := DataType.text, training_value := "LAPD",
         confidence_score := 0.2 }] }

/-! ## `models/validation.py`: Olympic-relevance scoring -/

namespace Validation

/-- Olympic-specific keywords (`validation.py` lines 250–254). -/
def olympic_keywords : List String :=
  ["2028", "olympics", "olympic", "los angeles", "la28",
   "olympic village", "olympic venues", "olympic games",
   "paralympics", "paralympic"]

/-- Surveillance/security keywords (`validation.py` lines 257–262). -/
def surveillance_keywords : List String :=
  ["surveillance", "facial recognition", "biometric", "monitoring",
   "security camera", "cctv", "intelligence", "tracking",
   "facial detection", "crowd monitoring", "perimeter security",
   "access control", "identity verification", "screening"]

/-- Technology keywords (`validation.py` lines 265–269). -/
def tech_keywords : List String :=
  ["ai", "artificial intelligence", "machine learning", "analytics",
   "data collection", "database", "software platform",
   "mobile surveillance", "drone", "sensor network"]

/-- Security-services keywords (`validation.py` lines 272–276). -/
def security_keywords : List String :=
  ["security services", "police", "law enforcement",
   "emergency response", "crowd control", "perimeter",
   "checkpoint", "screening", "patrol"]

/-- One pass of the source's `for keyword in kws: if keyword in text_lower:
matched_keywords.append(keyword); relevance_score += weight` loops, threaded
over an accumulator. -/
def scanKeywords (textLower : String) (kws : List String) (weight : ℚ)
    (acc : List String × ℚ) : List String × ℚ :=
  kws.foldl
    (fun a k => if strContains textLower k then (a.1 ++ [k], a.2 + weight) else a)
    acc

/-- `validate_olympic_relevance` (`validation.py` lines 234–324): weighted
keyword scan over the lowercased text, cross-category 1.5× bonus, `min(·/10,1)`
normalisation, and the relevance test `score ≥ 0.3 or len(matched) ≥ 2`. -/
def validate_olympic_relevance (text : String) : Bool × List String × ℚ :=
  if text = "" then (false, [], 0.0)
  else
    let text_lower := pyLower text
    let a1 := scanKeywords text_lower olympic_keywords 2.0 ([], 0.0)
    let a2 := scanKeywords text_lower surveillance_keywords 3.0 a1
    let a3 := scanKeywords text_lower tech_keywords 1.0 a2
    let a4 := scanKeywords text_lower security_keywords 1.5 a3
    let matched_keywords := a4.1
    let keyword_categories : Nat :=
      (if matched_keywords.any (fun k => olympic_keywords.contains k) then 1 else 0)
      + (if matched_keywords.any (fun k => surveillance_keywords.contains k) then 1 else 0)
      + (if matched_keywords.any (fun k => tech_keywords.contains k) then 1 else 0)
      + (if matched_keywords.any (fun k => security_keywords.contains k) then 1 else 0)
    let score1 : ℚ := if 2 ≤ keyword_categories then a4.2 * 1.5 else a4.2
    let relevance_score : ℚ := min (score1 / 10.0) 1.0
    let is_relevant : Bool :=
      decide (relevance_score ≥ 0.3) || decide (2 ≤ matched_keywords.length)
    (is_relevant, matched_keywords, relevance_score)

end Validation

namespace RFPScraper

/-- `RFPScraper._categorize_rfp` (`rfp_scraper.py` lines 368–394): categories
from the Olympic-relevance result over `title + " " + description`, with the
`["General"]` default when nothing applies. -/
def categorize_rfp (extracted_data : List (String × String)) : List String :=
  let text_content :=
    getFieldD extracted_data "title" "" ++ " " ++ getFieldD extracted_data "description" ""
  let r := Validation.validate_olympic_relevance text_content
  let categories :=
    if r.1 then
      ["Olympics"]
      ++ (if r.2.2 > 0.7 then ["High Priority"] else [])
      ++ (if ["surveillance", "facial recognition", "biometric", "monitoring"].any
            (fun k => r.2.1.contains k) then ["Surveillance"] else [])
      ++ (if ["security", "police", "law enforcement"].any
            (fun k => r.2.1.contains k) then ["Security"] else [])
    else []
  if categories = [] then ["General"] else categories

end RFPScraper

/-! ## `models/rfp.py` -/

/-- Model of a collision-free hex digest:
`hashlib.sha256(s.encode()).hexdigest()` is represented by its preimage `s`,
since the code only ever compares digests for equality. -/
def sha256_hexdigest (s : String) : String := s

/-- Model of `hashlib.md5(s.encode()).hexdigest()[:16]` (the RFP id digest),
likewise represented by its preimage. -/
def md5_hexdigest16 (s : String) : String := s

/-- `json.dumps(fields, sort_keys=True)` for a string-valued dict whose keys
and values need no JSON escaping. -/
def jsonDumpsSorted (fields : List (String × String)) : String :=
  "\x7b" ++ String.intercalate ", "
    ((sortLe (fun a b => strLe a.1 b.1) fields).map
      (fun p => "\"" ++ p.1 ++ "\": \"" ++ p.2 ++ "\"")) ++ "\x7d"

/-- One entry of `RFP.change_history` (shape of `RFP.add_change_record`). -/
structure ChangeEntry where
  timestamp : Int
  field : String
  old_value : Option String
  new_value : Option String
deriving DecidableEq, Repr

/-- `RFP` dataclass (`rfp.py`), with string-valued `extracted_fields` and
integer-second timestamps.  The unused presentation fields
(`closing_date`, `manual_review_status`, `notes`) are omitted. -/
structure RFP where
  id : String
  title : String
  url : String
  source_site : String
  posted_date : String := ""
  extracted_fields : List (String × String)
  detected_at : Int := 0
  content_hash : String
  categories : List String
  description : String := ""
  change_history : List ChangeEntry := []
deriving DecidableEq, Repr

namespace RFP

/-- `RFP.generate_content_hash` (`rfp.py` lines 53–56):
`sha256(f"{title}:{url}:{json.dumps(extracted_fields, sort_keys=True)}")`. -/
def generate_content_hash (r : RFP) : String :=
  sha256_hexdigest (r.title ++ ":" ++ r.url ++ ":" ++ jsonDumpsSorted r.extracted_fields)

/-- The `__post_init__` defaulting of `content_hash` (`rfp.py` lines 41–44):
an empty stored hash is replaced by the generated one. -/
def postInit (r : RFP) : RFP :=
  if r.content_hash = "" then { r with content_hash := r.generate_content_hash } else r

/-- `RFP.add_change_record` (`rfp.py` lines 58–70). -/
def add_change_record (now : Int) (r : RFP) (field : String)
    (old_value new_value : Option String) : RFP :=
  { r with change_history := r.change_history ++
      [{ timestamp := now, field := field, old_value := old_value,
         new_value := new_value }] }

/-- `RFP.update_field` (`rfp.py` lines 72–90): updates one extracted field,
records the change and recomputes the content hash; returns the updated RFP
and whether the value actually changed. -/
def update_field (now : Int) (r : RFP) (field : String) (new_value : String) :
    RFP × Bool :=
  let old_value := getField r.extracted_fields field
  if old_value ≠ some new_value then
    let r1 := { r with extracted_fields := setField r.extracted_fields field new_value }
    let r2 := add_change_record now r1 field old_value (some new_value)
    ({ r2 with content_hash := r2.generate_content_hash }, true)
  else
    (r, false)

/-- The category list of `RFP.is_high_priority` (`rfp.py` lines 124–127). -/
def high_priority_categories : List String :=
  ["surveillance", "security", "biometric", "facial_recognition",
   "data_collection", "intelligence", "monitoring"]

/-- The keyword list of `RFP.is_high_priority` (`rfp.py` lines 136–140).
Note `"IMSI catcher"` is checked against the lowercased text without being
lowercased itself, exactly as in the source. -/
def high_priority_keywords : List String :=
  ["facial recognition", "biometric", "surveillance", "monitoring",
   "intelligence", "predictive policing", "social media monitoring",
   "cell site simulator", "stingray", "IMSI catcher", "mass surveillance"]

/-- `RFP.is_high_priority` (`rfp.py` lines 122–147). -/
def is_high_priority (r : RFP) : Bool :=
  r.categories.any (fun c => high_priority_categories.contains (pyLower c)) ||
  high_priority_keywords.any (fun k =>
    strContains (pyLower (r.title ++ " " ++ getFieldD r.extracted_fields "description" "")) k)

/-- `RFP.is_closing_soon` (`rfp.py` lines 149–160): parses
`extracted_fields["closing_date"]` and checks
`0 <= (closing - now).days <= days_threshold`, where `.days` is floor
division by 86400 seconds.  `parseDate` stands for `datetime.fromisoformat`
(after the `Z → +00:00` replacement); a missing, empty (falsy) or unparseable
date yields `False`. -/
def is_closing_soon (parseDate : String → Option Int) (now : Int)
    (r : RFP) (days_threshold : Int := 7) : Bool :=
  match getField r.extracted_fields "closing_date" with
  | none => false
  | some s =>
    if s = "" then false
    else
      match parseDate s with
      | none => false
      | some closing =>
        let days_until_closing := (closing - now).fdiv 86400
        decide (0 ≤ days_until_closing ∧ days_until_closing ≤ days_threshold)

end RFP

/-! ## `utils/change_detector.py` -/

namespace ChangeDetector

/-- `ChangeType` enumeration. -/
inductive ChangeType
  | new_rfp
  | status_change
  | closing_date_change
  | content_update
  | value_change
  | category_change
  | removed_rfp
  | urgent_deadline
deriving DecidableEq, Repr

/-- `ChangeSeverity` enumeration. -/
inductive ChangeSeverity
  | low
  | medium
  | high
  | critical
deriving DecidableEq, Repr

/-- `ChangeRecord` dataclass. -/
structure ChangeRecord where
  change_id : String
  rfp_id : String
  rfp_title : String
  change_type : ChangeType
  severity : ChangeSeverity
  old_value : Option String
  new_value : Option String
  field_name : String
  detected_at : Int
  source_site : String
  description : String
  action_required : Bool := false
deriving DecidableEq, Repr

/-- `self.critical_fields` (`change_detector.py` lines 124–126). -/
def critical_fields : List String :=
  ["status", "closing_date", "contract_value", "issuer"]

/-- `self.surveillance_keywords` (`change_detector.py` lines 129–134). -/
def surveillance_keywords : List String :=
  ["surveillance", "monitoring", "facial recognition", "biometric",
   "security camera", "tracking", "intelligence", "analytics",
   "predictive policing", "crowd control", "social media monitoring",
   "license plate reader", "cell site simulator", "stingray"]

/-- `ChangeDetector._contains_surveillance_keywords`. -/
def contains_surveillance_keywords (text : String) : Bool :=
  surveillance_keywords.any (fun k => strContains (pyLower text) k)

/-- `datetime.now().strftime("%Y%m%d_%H%M%S")` in change ids, modelled as the
decimal rendering of the integer timestamp. -/
def timestampStr (now : Int) : String := toString now

/-- Python `str(value)` on an optional string: `str(None) = "None"`. -/
def str_of_py (v : Option String) : String :=
  match v with
  | none => "None"
  | some s => s

/-- Python truthiness of an optional string (`if current_closing`). -/
def truthy (v : Option String) : Bool :=
  match v with
  | none => false
  | some s => decide (s ≠ "")

/-- `ChangeDetector._assess_rfp_severity` (lines 477–499). -/
def assess_rfp_severity (parseDate : String → Option Int) (now : Int)
    (rfp : RFP) : ChangeSeverity :=
  if rfp.is_high_priority then ChangeSeverity.high
  else if contains_surveillance_keywords
      (rfp.title ++ " " ++ getFieldD rfp.extracted_fields "description" "") then
    ChangeSeverity.high
  else if rfp.is_closing_soon parseDate now 7 then ChangeSeverity.medium
  else ChangeSeverity.low

/-- The `NEW_RFP` record built in `detect_changes` (lines 219–237). -/
def new_rfp_record (parseDate : String → Option Int) (now : Int)
    (rfp : RFP) : ChangeRecord :=
  let severity := assess_rfp_severity parseDate now rfp
  { change_id := "new_" ++ rfp.id ++ "_" ++ timestampStr now
    rfp_id := rfp.id
    rfp_title := rfp.title
    change_type := ChangeType.new_rfp
    severity := severity
    old_value := none
    new_value := some "New RFP discovered"
    field_name := "rfp_status"
    detected_at := now
    source_site := rfp.source_site
    description := "New RFP discovered: " ++ rfp.title
    action_required := decide (severity = ChangeSeverity.high ∨
      severity = ChangeSeverity.critical) }

/-- The `REMOVED_RFP` record built in `detect_changes` (lines 241–258). -/
def removed_rfp_record (now : Int) (rfp : RFP) : ChangeRecord :=
  { change_id := "removed_" ++ rfp.id ++ "_" ++ timestampStr now
    rfp_id := rfp.id
    rfp_title := rfp.title
    change_type := ChangeType.removed_rfp
    severity := ChangeSeverity.medium
    old_value := some "Active"
    new_value := some "Removed"
    field_name := "rfp_status"
    detected_at := now
    source_site := rfp.source_site
    description := "RFP no longer available: " ++ rfp.title
    action_required := rfp.is_high_priority }

/-- The `CONTENT_UPDATE` record built in `_compare_extracted_fields`
(lines 346–372): severity HIGH for critical fields, MEDIUM for
description/title, LOW otherwise, escalated to HIGH when the new value
contains a surveillance keyword. -/
def content_update_record (now : Int) (rfp : RFP) (field_name : String)
    (old_v new_v : Option String) : ChangeRecord :=
  let severity0 :=
    if critical_fields.contains field_name then ChangeSeverity.high
    else if ["description", "title"].contains field_name then ChangeSeverity.medium
    else ChangeSeverity.low
  let severity :=
    if contains_surveillance_keywords (str_of_py new_v) then ChangeSeverity.high
    else severity0
  { change_id := "field_" ++ rfp.id ++ "_" ++ field_name ++ "_" ++ timestampStr now
    rfp_id := rfp.id
    rfp_title := rfp.title
    change_type := ChangeType.content_update
    severity := severity
    old_value := old_v
    new_value := new_v
    field_name := field_name
    detected_at := now
    source_site := rfp.source_site
    description := "Field \x27" ++ field_name ++ "\x27 changed: " ++
      str_of_py old_v ++ " → " ++ str_of_py new_v
    action_required := decide (severity = ChangeSeverity.high) }

/-- `ChangeDetector._compare_extracted_fields` (lines 323–374). -/
def compare_extracted_fields (now : Int)
    (current_fields previous_fields : List (String × String))
    (rfp : RFP) : List ChangeRecord :=
  let all_fields := dedupFirst (fieldKeys current_fields ++ fieldKeys previous_fields)
  all_fields.filterMap (fun field_name =>
    let current_value := getField current_fields field_name
    let previous_value := getField previous_fields field_name
    if current_value ≠ previous_value then
      some (content_update_record now rfp field_name previous_value current_value)
    else none)

/-- The `STATUS_CHANGE` record of `_check_critical_field_changes`
(lines 393–412): CRITICAL when the new status is cancelled, withdrawn or
awarded; `action_required` always true. -/
def status_change_record (now : Int) (current : RFP)
    (previous_status current_status : String) : ChangeRecord :=
  let severity :=
    if ["cancelled", "withdrawn", "awarded"].contains (pyLower current_status) then
      ChangeSeverity.critical
    else ChangeSeverity.high
  { change_id := "status_" ++ current.id ++ "_" ++ timestampStr now
    rfp_id := current.id
    rfp_title := current.title
    change_type := ChangeType.status_change
    severity := severity
    old_value := some previous_status
    new_value := some current_status
    field_name := "status"
    detected_at := now
    source_site := current.source_site
    description := "RFP status changed: " ++ previous_status ++ " → " ++ current_status
    action_required := true }

/-- The `CLOSING_DATE_CHANGE` record of `_check_critical_field_changes`
(lines 418–439): CRITICAL when the (truthy) new deadline is within 2 days. -/
def closing_date_change_record (parseDate : String → Option Int) (now : Int)
    (current : RFP) (previous_closing current_closing : Option String) : ChangeRecord :=
  let severity :=
    if truthy current_closing && current.is_closing_soon parseDate now 2 then
      ChangeSeverity.critical
    else ChangeSeverity.high
  { change_id := "deadline_" ++ current.id ++ "_" ++ timestampStr now
    rfp_id := current.id
    rfp_title := current.title
    change_type := ChangeType.closing_date_change
    severity := severity
    old_value := previous_closing
    new_value := current_closing
    field_name := "closing_date"
    detected_at := now
    source_site := current.source_site
    description := "Closing date changed: " ++ str_of_py previous_closing ++
      " → " ++ str_of_py current_closing
    action_required := true }

/-- `ChangeDetector._check_critical_field_changes` (lines 376–441). -/
def check_critical_field_changes (parseDate : String → Option Int) (now : Int)
    (current previous : RFP) : List ChangeRecord :=
  let current_status := getFieldD current.extracted_fields "status" ""
  let previous_status := getFieldD previous.extracted_fields "status" ""
  let statusRecs :=
    if current_status ≠ previous_status then
      [status_change_record now current previous_status current_status]
    else []
  let current_closing := getField current.extracted_fields "closing_date"
  let previous_closing := getField previous.extracted_fields "closing_date"
  let closingRecs :=
    if current_closing ≠ previous_closing then
      [closing_date_change_record parseDate now current previous_closing current_closing]
    else []
  statusRecs ++ closingRecs

/-- Equality of the category sets (`set(current.categories) !=
set(previous.categories)`). -/
def sameSet (a b : List String) : Bool :=
  a.all (fun x => b.contains x) && b.all (fun x => a.contains x)

/-- The `CATEGORY_CHANGE` record of `_compare_rfps` (lines 305–319). -/
def category_change_record (now : Int) (current previous : RFP) : ChangeRecord :=
  { change_id := "cat_" ++ current.id ++ "_" ++ timestampStr now
    rfp_id := current.id
    rfp_title := current.title
    change_type := ChangeType.category_change
    severity := ChangeSeverity.medium
    old_value := some (toString previous.categories)
    new_value := some (toString current.categories)
    field_name := "categories"
    detected_at := now
    source_site := current.source_site
    description := "Categories changed: " ++ toString previous.categories ++
      " → " ++ toString current.categories
    action_required := current.categories.any
      (fun cat => ["surveillance", "security"].contains cat) }

/-- `ChangeDetector._compare_rfps` (lines 276–321): field diff when the
content hashes differ, then the critical-field checks, then category
changes. -/
def compare_rfps (parseDate : String → Option Int) (now : Int)
    (current previous : RFP) : List ChangeRecord :=
  let field_changes :=
    if current.content_hash ≠ previous.content_hash then
      compare_extracted_fields now current.extracted_fields
        previous.extracted_fields current
    else []
  let critical_changes := check_critical_field_changes parseDate now current previous
  let category_changes :=
    if ¬ sameSet current.categories previous.categories then
      [category_change_record now current previous]
    else []
  field_changes ++ critical_changes ++ category_changes

/-- The `URGENT_DEADLINE` record of `_detect_urgent_deadlines`
(lines 459–472): CRITICAL for high-priority RFPs, HIGH otherwise;
`action_required` always true. -/
def urgent_deadline_record (now : Int) (rfp : RFP) : ChangeRecord :=
  let severity :=
    if rfp.is_high_priority then ChangeSeverity.critical else ChangeSeverity.high
  { change_id := "urgent_" ++ rfp.id ++ "_" ++ timestampStr now
    rfp_id := rfp.id
    rfp_title := rfp.title
    change_type := ChangeType.urgent_deadline
    severity := severity
    old_value := none
    new_value := getField rfp.extracted_fields "closing_date"
    field_name := "closing_date"
    detected_at := now
    source_site := rfp.source_site
    description := "URGENT: RFP closing within 48 hours - " ++
      str_of_py (getField rfp.extracted_fields "closing_date")
    action_required := true }

/-- `ChangeDetector._detect_urgent_deadlines` (lines 443–475): one record per
current RFP closing within 48 hours, regardless of any diff. -/
def detect_urgent_deadlines (parseDate : String → Option Int) (now : Int)
    (rfps : List RFP) : List ChangeRecord :=
  rfps.filterMap (fun rfp =>
    if rfp.is_closing_soon parseDate now 2 then
      some (urgent_deadline_record now rfp)
    else none)

/-- Last-wins lookup in `{rfp.id: rfp for rfp in rfps}`. -/
def byId (rfps : List RFP) (k : String) : Option RFP :=
  rfps.reverse.find? (fun r => r.id == k)

/-- Insertion-ordered key list of the id dict. -/
def idKeys (rfps : List RFP) : List String := dedupFirst (rfps.map (·.id))

/-- `ChangeDetector.detect_changes` (lines 193–274) with an explicitly
supplied previous corpus: new ids, removed ids, field-level diff of common
ids, then urgent deadlines. -/
def detect_changes (parseDate : String → Option Int) (now : Int)
    (current_rfps previous_rfps : List RFP) : List ChangeRecord :=
  let new_rfp_ids := (idKeys current_rfps).filter
    (fun i => ¬ (idKeys previous_rfps).contains i)
  let new_changes := new_rfp_ids.filterMap
    (fun i => (byId current_rfps i).map (new_rfp_record parseDate now))
  let removed_rfp_ids := (idKeys previous_rfps).filter
    (fun i => ¬ (idKeys current_rfps).contains i)
  let removed_changes := removed_rfp_ids.filterMap
    (fun i => (byId previous_rfps i).map (removed_rfp_record now))
  let common_rfp_ids := (idKeys current_rfps).filter
    (fun i => (idKeys previous_rfps).contains i)
  let common_changes := common_rfp_ids.flatMap (fun i =>
    match byId current_rfps i, byId previous_rfps i with
    | some c, some p => compare_rfps parseDate now c p
    | _, _ => [])
  let urgent_changes := detect_urgent_deadlines parseDate now current_rfps
  new_changes ++ removed_changes ++ common_changes ++ urgent_changes

end ChangeDetector

/-- The list of keywords from `kws` that occur as substrings of the lowercased
text; one of the four per-category scans of `validate_olympic_relevance`. -/
def keywordMatches (text : String) (kws : List String) : List String :=
  kws.filter (fun k => strContains (pyLower text) k)

/-- Number of the four keyword categories with at least one match in `text`;
formalisation of C9's "keywords from at least 2 distinct categories
matched". -/
def relevanceCategoryCount (text : String) : Nat :=
  (if keywordMatches text Validation.olympic_keywords ≠ [] then 1 else 0)
  + (if keywordMatches text Validation.surveillance_keywords ≠ [] then 1 else 0)
  + (if keywordMatches text Validation.tech_keywords ≠ [] then 1 else 0)
  + (if keywordMatches text Validation.security_keywords ≠ [] then 1 else 0)

/-- The weighted raw relevance score as claim C9 states it: each matched
Olympic keyword ×2, surveillance ×3, general-tech ×1, security-service
×1.5. -/
def relevanceRawScore (text : String) : ℚ :=
  2 * ((keywordMatches text Validation.olympic_keywords).length : ℚ)
  + 3 * ((keywordMatches text Validation.surveillance_keywords).length : ℚ)
  + 1 * ((keywordMatches text Validation.tech_keywords).length : ℚ)
  + 1.5 * ((keywordMatches text Validation.security_keywords).length : ℚ)

/-! ## `models/serialization.py`: the RFP store -/

namespace DataManager

/-- The duplicate scan of `DataManager.add_rfp` (`serialization.py` lines
273–280): walk the stored RFPs and stop at the first one sharing the new
RFP's id or url. -/
def dup_check : List RFP → RFP → Bool
  | [], _ => false
  | e :: t, r =>
    if e.id == r.id then true
    else if e.url == r.url then true
    else dup_check t r

/-- `DataManager.add_rfp` (`serialization.py` lines 264–284), acting on the
loaded RFP list: skip the new RFP when a stored one shares its id or url,
otherwise append it (and save). -/
def add_rfp (store : List RFP) (rfp : RFP) : List RFP :=
  if dup_check store rfp then store else store ++ [rfp]

/-- `DataManager.update_rfp` (`serialization.py` lines 286–306): replace the
first stored RFP with a matching id. -/
def update_rfp_store : List RFP → RFP → List RFP
  | [], _ => []
  | e :: t, r => if e.id == r.id then r :: t else e :: update_rfp_store t r

end DataManager

/-! ## `scrapers/rfp_scraper.py`: the extraction orchestrator -/

namespace RFPScraper

/-- Python `str(dict)` of a string-valued dict with sorted keys:
`{\x27k\x27: \x27v\x27, ...}`. -/
def strOfSortedDict (fields : List (String × String)) : String :=
  "\x7b" ++ String.intercalate ", "
    ((sortLe (fun a b => strLe a.1 b.1) fields).map
      (fun p => "\x27" ++ p.1 ++ "\x27: \x27" ++ p.2 ++ "\x27")) ++ "\x7d"

/-- `RFPScraper._generate_content_hash` (`rfp_scraper.py` lines 328–333):
`sha256(str(dict(sorted(extracted_data.items()))))` — note this is a
different digest format from `RFP.generate_content_hash`. -/
def scraper_content_hash (extracted_data : List (String × String)) : String :=
  sha256_hexdigest (strOfSortedDict extracted_data)

/-- `RFPScraper._generate_rfp_id` (lines 321–326):
`md5(f"{url}:{title}")[:16]`. -/
def generate_rfp_id (url : String) (extracted_data : List (String × String)) : String :=
  md5_hexdigest16 (url ++ ":" ++ getFieldD extracted_data "title" "")

/-- `RFPScraper._create_rfp` (lines 335–352). -/
def create_rfp (now : Int) (rfp_id url : String) (site : SiteConfig)
    (extracted_data : List (String × String)) : RFP :=
  { id := rfp_id
    title := getFieldD extracted_data "title" "Unknown RFP"
    url := url
    source_site := site.id
    extracted_fields := extracted_data
    detected_at := now
    content_hash := scraper_content_hash extracted_data
    categories := categorize_rfp extracted_data }

/-- `RFPScraper._update_rfp` (lines 354–366): for each extracted field
already present on the stored RFP with a differing value, apply
`RFP.update_field` (which appends to `change_history` and recomputes the
content hash); then reassign the categories. -/
def update_rfp (now : Int) (existing : RFP)
    (new_data : List (String × String)) : RFP :=
  let updated := new_data.foldl (fun r kv =>
    match getField r.extracted_fields kv.1 with
    | none => r
    | some old => if old ≠ kv.2 then (RFP.update_field now r kv.1 kv.2).1 else r)
    existing
  { updated with categories := categorize_rfp new_data }

/-- Classification of one processed RFP URL. -/
structure ProcessResult where
  is_new : Bool
  is_updated : Bool
  rfp : RFP
deriving Repr

/-- `RFPScraper._process_rfp_url` (lines 259–319) with the fetch and
extraction already performed (`extracted_data`), acting on the loaded store:
generate the id, look up the stored RFP, compare content hashes, then
create / update / no-op. -/
def process_rfp_url (now : Int) (site : SiteConfig) (store : List RFP)
    (rfp_url : String) (extracted_data : List (String × String)) :
    ProcessResult × List RFP :=
  let rfp_id := generate_rfp_id rfp_url extracted_data
  match store.find? (fun r => r.id == rfp_id) with
  | some existing =>
    let new_content_hash := scraper_content_hash extracted_data
    if existing.content_hash ≠ new_content_hash then
      let updated := update_rfp now existing extracted_data
      (⟨false, true, updated⟩, DataManager.update_rfp_store store updated)
    else
      (⟨false, false, existing⟩, store)
  | none =>
    let new_rfp := create_rfp now rfp_id rfp_url site extracted_data
    (⟨true, false, new_rfp⟩, DataManager.add_rfp store new_rfp)

end RFPScraper

/-- Site fixture for the re-scrape scenario. -/
def siteC3 : SiteConfig :=
  { id := "la_city"
    name := "LA City"
    base_url := "https://example.gov"
    main_rfp_page_url := "https://example.gov/rfps"
    sample_rfp_url := "https://example.gov/rfps/1"
    field_mappings := []
    status := SiteStatus.active }

/-- URL of the C3 scenario RFP. -/
def urlC3 : String := "https://example.gov/rfp/7"

/-- First-scrape extraction of the C3 scenario. -/
def fieldsC3v0 : List (String × String) :=
  [("title", "Road Repaving Program"), ("status", "Active")]

/-- Second-scrape extraction: only the status changed. -/
def fieldsC3 : List (String × String) :=
  [("title", "Road Repaving Program"), ("status", "Withdrawn")]

/-- The stored RFP after run 1 created it and run 2 updated it field-by-field
(`update_field` recomputed its content hash in `RFP.generate_content_hash`
format). -/
def rfpC3stored : RFP :=
  RFPScraper.update_rfp 0
    (RFPScraper.create_rfp 0 (RFPScraper.generate_rfp_id urlC3 fieldsC3v0)
      urlC3 siteC3 fieldsC3v0)
    fieldsC3

/-- Store fixtures for the `add_rfp` uniqueness witness. -/
def rfpC10a : RFP :=
  { id := "id-a"
    title := "Fleet Maintenance"
    url := "https://example.gov/rfp/a"
    source_site := "la_city"
    extracted_fields := []
    content_hash := "ha"
    categories := ["General"] }

/-- A genuinely new RFP (fresh id and url). -/
def rfpC10b : RFP :=
  { id := "id-b"
    title := "Park Landscaping"
    url := "https://example.gov/rfp/b"
    source_site := "la_city"
    extracted_fields := []
    content_hash := "hb"
    categories := ["General"] }

/-- An RFP with a fresh id but the url of `rfpC10a` (url-duplicate case). -/
def rfpC10c : RFP :=
  { id := "id-c"
    title := "Fleet Maintenance (repost)"
    url := "https://example.gov/rfp/a"
    source_site := "la_city"
    extracted_fields := []
    content_hash := "hc"
    categories := ["General"] }

/-! ## `models/errors.py` and `scrapers/base_scraper.py` -/

/-- The exception taxonomy of `models/errors.py`, with the distinguishing
payloads of each class.  There is no robots-specific error class. -/
inductive RFPMonitorError
  | validationError (field message : String)
  | scrapingError (site_id url message : String)
  | fieldMappingError (site_id fm_alias selector message : String)
  | configurationError (site_id message : String)
  | dataIntegrityError (data_type identifier message : String)
  | networkError (url message : String) (status_code : Option Nat)
  | locationBindingError (site_id fm_alias training_value selector message : String)
deriving DecidableEq, Repr

namespace BaseScraper

/-- `BaseScraper.check_robots_txt` (`base_scraper.py` lines 118–163): when
robots compliance is enabled, the verdict of the (fetched or cached)
`RobotFileParser.can_fetch` for the given user agent and url; `can_fetch`
abstracts that parser.  The 24-hour cache only selects which parser instance
answers and is not modelled. -/
def check_robots_txt (respect_robots_txt : Bool)
    (can_fetch : String → String → Bool) (user_agent url : String) : Bool :=
  if ¬ respect_robots_txt then true else can_fetch user_agent url

/-- Classification of the last error after the retries of `fetch_page` are
exhausted (lines 280–288). -/
def classify_fetch_error (site_id url e : String) : RFPMonitorError :=
  if strContains (pyLower e) "timeout" then
    RFPMonitorError.networkError url "Request timeout" none
  else if strContains (pyLower e) "network" then
    RFPMonitorError.networkError url ("Network error: " ++ e) none
  else
    RFPMonitorError.scrapingError site_id url ("Fetch failed: " ++ e)

/-- The retry loop of `fetch_page` (lines 246–288): attempts
`k, k+1, …` while `remaining` is positive, returning the first success and
classifying the last error once retries are exhausted.  The exponential
backoff sleeps are timing-only and not modelled. -/
def retry_go (site_id url : String) (attempt : Nat → Except String String) :
    Nat → Nat → Except RFPMonitorError String
  | _, 0 => Except.error (RFPMonitorError.scrapingError site_id url
      "Unknown error during fetch")
  | k, remaining + 1 =>
    match attempt k with
    | Except.ok content => Except.ok content
    | Except.error e =>
      if remaining = 0 then Except.error (classify_fetch_error site_id url e)
      else retry_go site_id url attempt (k + 1) remaining

/-- `BaseScraper.fetch_page` (lines 212–288): robots.txt check first —
failing with a `ScrapingError` "Access disallowed by robots.txt" — then
(rate limiting elided, timing-only) the retry loop over
`max_retries + 1` attempts. -/
def fetch_page (respect_robots_txt : Bool) (can_fetch : String → String → Bool)
    (user_agent : String) (attempt : Nat → Except String String)
    (max_retries : Nat) (site : SiteConfig) (url : String) :
    Except RFPMonitorError String :=
  if check_robots_txt respect_robots_txt can_fetch user_agent url = false then
    Except.error (RFPMonitorError.scrapingError site.id url
      "Access disallowed by robots.txt")
  else
    retry_go site.id url attempt 0 (max_retries + 1)

/-- The fallback loop inside `extract_data`'s try block (lines 316–326):
the first fallback selector (in declared order) whose extraction yields a
value; exceptions propagate. -/
def try_fallbacks (ext : String → DataType → Except String (Option String))
    (dt : DataType) : List String → Except String (Option String)
  | [] => Except.ok none
  | s :: rest =>
    match ext s dt with
    | Except.error e => Except.error e
    | Except.ok (some v) => Except.ok (some v)
    | Except.ok none => try_fallbacks ext dt rest

/-- The per-mapping resolution of `extract_data` (lines 309–326): the primary
selector's value if it resolves, otherwise the fallback loop. -/
def resolve_field (ext : String → DataType → Except String (Option String))
    (m : FieldMapping) : Except String (Option String) :=
  match ext m.selector m.data_type with
  | Except.error e => Except.error e
  | Except.ok (some v) => Except.ok (some v)
  | Except.ok none => try_fallbacks ext m.data_type m.fallback_selectors

/-- `BaseScraper.extract_data` (lines 290–340), parameterised by the abstract
per-selector extractor (`_extract_field_value`, i.e. the DOM backend): each
mapping is processed in turn; a resolved value is added under the mapping's
alias; a mapping resolving to no value contributes nothing (only a log
warning); a mapping whose extraction raises gets `add_validation_error` and
contributes nothing; processing always continues.  Returns the extracted
dict together with the (possibly error-annotated) mappings. -/
def extract_data (ext : String → DataType → Except String (Option String)) :
    List FieldMapping → List (String × String) × List FieldMapping
  | [] => ([], [])
  | m :: rest =>
    let tail := extract_data ext rest
    match resolve_field ext m with
    | Except.ok (some v) => ((m.field_alias, v) :: tail.1, m :: tail.2)
    | Except.ok none => (tail.1, m :: tail.2)
    | Except.error e =>
      (tail.1, m.add_validation_error ("Extraction failed: " ++ e) :: tail.2)

end BaseScraper

/-- Claim-side formalisation of "try the primary selector first and then each
fallback selector in declared order, taking the first value that resolves",
as one sweep over the combined selector list. -/
def first_resolving (ext : String → DataType → Except String (Option String))
    (dt : DataType) : List String → Except String (Option String)
  | [] => Except.ok none
  | s :: rest =>
    match ext s dt with
    | Except.error e => Except.error e
    | Except.ok (some v) => Except.ok (some v)
    | Except.ok none => first_resolving ext dt rest

/-! ## `models/validation.py`: `ValidationResult` and the CSS checker -/

/-- `ValidationResult` (`validation.py` lines 20–42). -/
structure ValidationResult where
  is_valid : Bool := true
  errors : List String := []
  warnings : List String := []
deriving DecidableEq, Repr

namespace ValidationResult

/-- `ValidationResult.add_error`. -/
def add_error (r : ValidationResult) (e : String) : ValidationResult :=
  { r with errors := r.errors ++ [e], is_valid := false }

/-- `ValidationResult.add_warning`. -/
def add_warning (r : ValidationResult) (w : String) : ValidationResult :=
  { r with warnings := r.warnings ++ [w] }

/-- `ValidationResult.merge`. -/
def merge (r other : ValidationResult) : ValidationResult :=
  { is_valid := r.is_valid && other.is_valid
    errors := r.errors ++ other.errors
    warnings := r.warnings ++ other.warnings }

end ValidationResult

/-- Python `str.strip()` (whitespace trim at both ends). -/
def pyStrip (s : String) : String :=
  String.mk (((s.data.dropWhile Char.isWhitespace).reverse.dropWhile
    Char.isWhitespace).reverse)

/-- Occurrences of one character in a string (`s.count(c)`). -/
def countChar (s : String) (c : Char) : Nat := (s.data.filter (· == c)).length

/-- Python `\w` on the ASCII inputs in scope: letters, digits, underscore. -/
def isWordChar (c : Char) : Bool := c.isAlphanum || c == '_'

/-- Four consecutive digits somewhere in the character list
(`re.search(r"\d\x7b4,\x7d", s)`). -/
def hasFourConsecutiveDigits : List Char → Bool
  | c1 :: c2 :: c3 :: c4 :: rest =>
    (c1.isDigit && c2.isDigit && c3.isDigit && c4.isDigit) ||
      hasFourConsecutiveDigits (c2 :: c3 :: c4 :: rest)
  | _ => false

/-- `validate_css_selector` (`validation.py` lines 194–231). -/
def validate_css_selector (selector : String) : ValidationResult :=
  if selector = "" then
    ValidationResult.add_error {} "CSS selector cannot be empty"
  else
    let selector := pyStrip selector
    let r : ValidationResult := {}
    let r := if countChar selector '(' ≠ countChar selector ')' then
        r.add_error "Unmatched parentheses in selector" else r
    let r := if countChar selector '[' ≠ countChar selector ']' then
        r.add_error "Unmatched brackets in selector" else r
    let r := if hasFourConsecutiveDigits selector.data then
        r.add_warning "Selector contains long numbers (might be auto-generated IDs)" else r
    let r := if countChar selector ' ' > 5 then
        r.add_warning "Very long selector chain (might be fragile)" else r
    let r := if strContains selector "nth-child" then
        r.add_warning "Position-based selector (nth-child) may be fragile" else r
    r

/-! ## `scrapers/location_binder.py` -/

namespace LocationBinder

/-- `ElementCandidate` dataclass (lines 29–37); the ephemeral DOM handle
`element` is not modelled. -/
structure ElementCandidate where
  selector : String
  text_content : String
  confidence_score : ℚ
  extraction_method : String
deriving Repr

/-- The abstract regular-expression engine (Python `re`, an external
library): `search p t` is `re.search(p, t) is not None`, and `finditer p h`
the list of matched substrings of `re.finditer(p, h)` in order. -/
structure RegexEngine where
  search : String → String → Bool
  finditer : String → String → List String

/-- `self.data_type_patterns` (lines 65–86): the regex pattern strings per
data type; TEXT has no entry. -/
def data_type_patterns : DataType → List String
  | DataType.date =>
    ["\\d\x7b1,2\x7d[/-]\\d\x7b1,2\x7d[/-]\\d\x7b2,4\x7d",
     "\\d\x7b4\x7d-\\d\x7b2\x7d-\\d\x7b2\x7d",
     "[A-Za-z]+ \\d\x7b1,2\x7d, \\d\x7b4\x7d"]
  | DataType.currency =>
    ["\\$[\\d,]+(?:\\.\\d\x7b2\x7d)?",
     "USD?\\s*[\\d,]+(?:\\.\\d\x7b2\x7d)?",
     "[\\d,]+(?:\\.\\d\x7b2\x7d)?\\s*dollars?"]
  | DataType.number =>
    ["\\d+(?:,\\d\x7b3\x7d)*(?:\\.\\d+)?"]
  | DataType.email =>
    ["[a-zA-Z0-9._%+-]+@[a-zA-Z0-9.-]+\\.[a-zA-Z]\x7b2,\x7d"]
  | DataType.url =>
    ["https?://[^\\s<>\"]+",
     "www\\.[^\\s<>\"]+\\.[a-zA-Z]\x7b2,\x7d"]
  | DataType.text => []

/-- The normalisation of `_values_are_similar`:
`re.sub(r"[^\w]", "", value.lower())`. -/
def normalize_value (v : String) : String :=
  String.mk ((pyLower v).data.filter isWordChar)

/-- `_values_are_similar` (lines 225–239): after normalisation, both values
non-empty and `shorter/longer ≥ 0.6`. -/
def values_are_similar (value1 value2 : String) : Bool :=
  let v1 := normalize_value value1
  let v2 := normalize_value value2
  if v1.data.length = 0 ∨ v2.data.length = 0 then false
  else
    let longer := max v1.data.length v2.data.length
    let shorter := min v1.data.length v2.data.length
    decide (((shorter : ℚ) / (longer : ℚ)) ≥ 0.6)

/-- Three consecutive digits somewhere in the character list. -/
def hasThreeConsecutiveDigits : List Char → Bool
  | c1 :: c2 :: c3 :: rest =>
    (c1.isDigit && c2.isDigit && c3.isDigit) ||
      hasThreeConsecutiveDigits (c2 :: c3 :: rest)
  | _ => false

/-- `re.search(r"#\w*\d\x7b3,\x7d", selector)`: some `#` is followed by a run
of word characters containing three consecutive digits. -/
def autoIdSearch : List Char → Bool
  | [] => false
  | c :: rest =>
    (c == '#' && hasThreeConsecutiveDigits (rest.takeWhile isWordChar)) ||
      autoIdSearch rest

/-- `_is_stable_selector` (lines 241–255). -/
def is_stable_selector (selector : String) : Bool :=
  if autoIdSearch selector.data then false
  else if strContains selector "nth-child" && decide (countChar selector ' ' > 3) then
    false
  else if strContains selector "." || strContains selector "[" then true
  else true

/-- Python's salted `hash(s) % 1000` (used only to render mock selector
names), modelled by a fixed deterministic hash; no claim depends on its
value, only on the surrounding selector text. -/
def pyHashMod1000 (s : String) : Nat :=
  (s.data.foldl (fun a c => a * 31 + c.toNat) 7) % 1000

/-- Non-overlapping occurrence count with an explicit fuel argument (the
fuel is the remaining haystack length, so it never runs out). -/
def countSubAux (n : List Char) : List Char → Nat → Nat
  | _, 0 => 0
  | h, fuel + 1 =>
    match h with
    | [] => 0
    | c :: t =>
      if n.isPrefixOf (c :: t) then
        1 + countSubAux n (t.drop (n.length - 1)) fuel
      else countSubAux n t fuel

/-- The number of matches of `re.finditer(re.escape(target), html,
re.IGNORECASE)`: non-overlapping case-insensitive occurrences. -/
def countCI (html target : String) : Nat :=
  let n := (pyLower target).data
  let h := (pyLower html).data
  if n.isEmpty then h.length + 1 else countSubAux n h h.length

/-- The exact-match candidate of `_find_candidates_in_html` (lines 152–162):
its `text_content` is the target value itself. -/
def exact_candidate (target_value : String) : ElementCandidate :=
  { selector := ".field-containing-" ++ toString (pyHashMod1000 target_value)
    text_content := target_value
    confidence_score := 0.9
    extraction_method := "text" }

/-- The pattern-match candidate of `_find_candidates_in_html`
(lines 164–176). -/
def pattern_candidate (m : String) : ElementCandidate :=
  { selector := ".pattern-field-" ++ toString (pyHashMod1000 m)
    text_content := m
    confidence_score := 0.7
    extraction_method := "text" }

/-- `_find_candidates_in_html` (lines 139–178): one candidate per
case-insensitive occurrence of the target, then one candidate per
data-type-pattern match that is similar enough to the target. -/
def find_candidates_in_html (engine : RegexEngine)
    (html_content target_value : String) (data_type : DataType) :
    List ElementCandidate :=
  let exacts := List.replicate (countCI html_content target_value)
    (exact_candidate target_value)
  let patterns := (data_type_patterns data_type).flatMap (fun pattern =>
    (engine.finditer pattern html_content).filterMap (fun m =>
      if values_are_similar m target_value then some (pattern_candidate m)
      else none))
  exacts ++ patterns

/-- `_calculate_confidence` (lines 199–223): 0.8 for an exact
(case-insensitive, stripped) text match, else 0.5 for a substring match;
+0.2 when a data-type pattern matches the candidate text; +0.1 for a stable
selector; capped at 1.0. -/
def calculate_confidence (engine : RegexEngine) (candidate : ElementCandidate)
    (target_value : String) (data_type : DataType) : ℚ :=
  let confidence : ℚ := 0.0
  let confidence :=
    if pyLower (pyStrip candidate.text_content) = pyLower (pyStrip target_value) then
      confidence + 0.8
    else if strContains (pyLower candidate.text_content) (pyLower target_value) then
      confidence + 0.5
    else confidence
  let confidence :=
    if (data_type_patterns data_type).any
        (fun pat => engine.search pat candidate.text_content) then
      confidence + 0.2
    else confidence
  let confidence :=
    if is_stable_selector candidate.selector then confidence + 0.1 else confidence
  min confidence 1.0

/-- `_filter_and_rank_candidates` (lines 180–197): recompute each
candidate's confidence, keep those ≥ 0.3, sort by confidence descending
(stable, like Python's `sort(reverse=True)`), cap at `max_candidates = 50`. -/
def filter_and_rank_candidates (engine : RegexEngine)
    (candidates : List ElementCandidate) (target_value : String)
    (data_type : DataType) : List ElementCandidate :=
  let valid := candidates.filterMap (fun c =>
    let conf := calculate_confidence engine c target_value data_type
    if conf ≥ 0.3 then some { c with confidence_score := conf } else none)
  (sortLe (fun a b => decide (b.confidence_score ≤ a.confidence_score)) valid).take 50

/-- `find_field_location` (lines 88–137): scan, filter and rank; raise
`LocationBindingError` when nothing qualifies.  (The source's outer
`except` re-wraps the raised error's message; no claim reads the message,
so the single error value stands for both.) -/
def find_field_location (engine : RegexEngine)
    (page_content target_value : String) (data_type : DataType) :
    Except RFPMonitorError (List ElementCandidate) :=
  let candidates := find_candidates_in_html engine page_content target_value data_type
  let valid_candidates := filter_and_rank_candidates engine candidates
    target_value data_type
  if valid_candidates.isEmpty then
    Except.error (RFPMonitorError.locationBindingError "unknown" "unknown"
      target_value ""
      ("No suitable DOM locations found for value \x27" ++ target_value ++ "\x27"))
  else Except.ok valid_candidates

/-- `_validate_extracted_value` (lines 417–433): per-data-type pattern
check; note every branch — including a failed pattern scan — falls through
to the final `return True`, exactly as in the source. -/
def validate_extracted_value (engine : RegexEngine) (value : String)
    (data_type : DataType) : Bool :=
  match data_type with
  | DataType.date =>
    if (data_type_patterns DataType.date).any (fun p => engine.search p value) then true
    else true
  | DataType.currency =>
    if (data_type_patterns DataType.currency).any (fun p => engine.search p value) then true
    else true
  | DataType.number =>
    if (data_type_patterns DataType.number).any (fun p => engine.search p value) then true
    else true
  | _ => true

/-- The fallback loop of `validate_field_mapping` (lines 365–373): the first
fallback selector that extracts a value, together with that value. -/
def vfm_fallbacks (extractVal : String → String → DataType → Option String)
    (page : String) (dt : DataType) : List String → Option (String × String)
  | [] => none
  | fb :: rest =>
    match extractVal page fb dt with
    | some v => some (v, fb)
    | none => vfm_fallbacks extractVal page dt rest

/-- The format warning of `validate_field_mapping`. -/
def format_warning (v : String) : String :=
  "Extracted value format may be incorrect: \x27" ++ v ++ "\x27"

/-- The training-value-divergence warning of `validate_field_mapping`. -/
def divergence_warning (v training : String) : String :=
  "Extracted value differs from training value. Got: \x27" ++ v ++
    "\x27, Expected similar to: \x27" ++ training ++ "\x27"

/-- `validate_field_mapping` (lines 337–394), parameterised by the abstract
DOM extractor (`_extract_value_with_selector`): CSS-syntax check, primary
then fallback extraction (warning when a fallback succeeded, error when
nothing extracts), then the format and training-value-divergence warnings. -/
def validate_field_mapping (engine : RegexEngine)
    (extractVal : String → String → DataType → Option String)
    (m : FieldMapping) (page_content : String) : ValidationResult :=
  let result := ValidationResult.merge {} (validate_css_selector m.selector)
  if ¬ result.is_valid then result
  else
    let after_value := fun (r : ValidationResult) (v : String) =>
      let r := if ¬ validate_extracted_value engine v m.data_type then
          r.add_warning (format_warning v) else r
      let r := if ¬ values_are_similar v m.training_value then
          r.add_warning (divergence_warning v m.training_value) else r
      r
    match extractVal page_content m.selector m.data_type with
    | some v => after_value result v
    | none =>
      match vfm_fallbacks extractVal page_content m.data_type m.fallback_selectors with
      | some (v, fb) =>
        after_value (result.add_warning
          ("Primary selector failed, fallback worked: " ++ fb)) v
      | none => result.add_error "No value could be extracted with any selector"

end LocationBinder

/-- Site fixture for the robots.txt scenario. -/
def siteC8 : SiteConfig :=
  { id := "la28"
    name := "LA28 Procurement Portal"
    base_url := "https://la28.example.gov"
    main_rfp_page_url := "https://la28.example.gov/rfps"
    sample_rfp_url := "https://la28.example.gov/rfps/1"
    field_mappings := []
    status := SiteStatus.active }

/-- A field mapping whose selectors all resolve to no value in the C5
scenario. -/
def mC5 : FieldMapping :=
  { field_alias := "contract_value"
    selector := ".contract-value"
    data_type := DataType.currency
    training_value := "$50,000"
    fallback_selectors := ["[data-field=contract_value]", ".amount"] }

/-- A second mapping, which does resolve in the C5 witness scenario. -/
def mC5b : FieldMapping :=
  { field_alias := "status"
    selector := ".rfp-status"
    data_type := DataType.text
    training_value := "Active" }

/-- Extractor for the C5 counterexample: every selector resolves to no
value, without raising. -/
def extC5none : String → DataType → Except String (Option String) :=
  fun _ _ => Except.ok none

/-- Extractor for the C5 witness: `.rfp-status` resolves, everything else
yields no value. -/
def extC5w : String → DataType → Except String (Option String) :=
  fun sel _ => if sel = ".rfp-status" then Except.ok (some "Active") else Except.ok none

/-- A trivial regex engine for concrete location-binder scenarios: no
pattern ever matches.  (The exact-occurrence scan of
`_find_candidates_in_html` does not go through the engine.) -/
def trivEngine : LocationBinder.RegexEngine :=
  { search := fun _ _ => false
    finditer := fun _ _ => [] }

/-- The single candidate found on the page `"<div>Active</div>"` for target
`"Active"`: the exact-match candidate with recomputed confidence 0.9. -/
def csC6 : List LocationBinder.ElementCandidate :=
  [{ LocationBinder.exact_candidate "Active" with confidence_score := 0.9 }]

/-- Field mapping for the mapping-validation scenario: a healthy selector
with a training value the extracted value does not resemble. -/
def mC7 : FieldMapping :=
  { field_alias := "status"
    selector := ".rfp-status"
    data_type := DataType.text
    training_value := "Request for Proposals 2028" }

/-- Abstract DOM extractor for the mapping-validation scenario: only
`.rfp-status` resolves, to `"Active"`. -/
def extC7 : String → String → DataType → Option String :=
  fun _ sel _ => if sel = ".rfp-status" then some "Active" else none

/-- Date parser that parses nothing; the C1 scenario carries no dates. -/
def parseDateNone : String → Option Int := fun _ => none

/-- Previous state of the C1 scenario: one stored RFP with extracted status
"Active" and a generated content hash. -/
def rfpC1prev : RFP := RFP.postInit
  { id := "c1-rfp"
    title := "Road Maintenance Services"
    url := "https://example.gov/rfp/1"
    source_site := "la_city"
    extracted_fields := [("status", "Active")]
    content_hash := ""
    categories := ["General"] }

/-- Current state of the C1 scenario: the same RFP after
`update_field("status", "Withdrawn")` (which recomputes the content hash). -/
def rfpC1cur : RFP := (RFP.update_field 0 rfpC1prev "status" "Withdrawn").1

/-- A concrete non-priority RFP closing 24 hours after time 0 (witness input
for the urgent-deadline property). -/
def rfpC2 : RFP :=
  { id := "rfp-urgent"
    title := "Community Garden Supplies"
    url := "https://example.gov/rfp/9"
    source_site := "la_city"
    extracted_fields := [("closing_date", "2025-01-01T00:00:00")]
    content_hash := "h1"
    categories := ["General"] }

/-- Concrete date parser for the witness: the one date string of `rfpC2`
parses to 86400 seconds. -/
def parseDateC2 : String → Option Int :=
  fun s => if s = "2025-01-01T00:00:00" then some 86400 else none

/-! # Theorems -/

/-! ## Generic helper lemmas -/

theorem mem_insertLe {α : Type} (le : α → α → Bool) (x : α) (l : List α) (a : α) :
    a ∈ insertLe le x l ↔ a = x ∨ a ∈ l := by
  induction l with
  | nil => simp [insertLe]
  | cons y ys ih =>
    simp only [insertLe]
    by_cases h : le x y = true
    · simp [h]
    · simp only [if_neg h, List.mem_cons, ih]
      tauto

theorem mem_sortLe {α : Type} (le : α → α → Bool) (l : List α) (a : α) :
    a ∈ sortLe le l ↔ a ∈ l := by
  induction l with
  | nil => simp [sortLe]
  | cons x xs ih => simp [sortLe, mem_insertLe, ih]

theorem length_insertLe {α : Type} (le : α → α → Bool) (x : α) (l : List α) :
    (insertLe le x l).length = l.length + 1 := by
  induction l with
  | nil => simp [insertLe]
  | cons y ys ih =>
    rw [insertLe]
    by_cases h : le x y = true
    · simp [h]
    · simp [h, ih]

theorem length_sortLe {α : Type} (le : α → α → Bool) (l : List α) :
    (sortLe le l).length = l.length := by
  induction l with
  | nil => simp [sortLe]
  | cons x xs ih => simp [sortLe, length_insertLe, ih]

theorem pairwise_insertLe {α : Type} (le : α → α → Bool)
    (htrans : ∀ a b c, le a b = true → le b c = true → le a c = true)
    (htotal : ∀ a b, le a b = true ∨ le b a = true)
    (x : α) (l : List α) (h : l.Pairwise (fun a b => le a b = true)) :
    (insertLe le x l).Pairwise (fun a b => le a b = true) := by
  induction l with
  | nil => simp [insertLe]
  | cons y ys ih =>
    rcases List.pairwise_cons.mp h with ⟨hy, hys⟩
    by_cases hxy : le x y = true
    · rw [insertLe, if_pos hxy]
      refine List.pairwise_cons.mpr ⟨?_, h⟩
      intro b hb
      rcases hb with _ | hb
      · exact hxy
      · exact htrans _ _ _ hxy (hy _ (by assumption))
    · rw [insertLe, if_neg hxy]
      refine List.pairwise_cons.mpr ⟨?_, ih hys⟩
      intro b hb
      rw [mem_insertLe] at hb
      rcases hb with hbx | hb
      · rw [hbx]
        rcases htotal x y with h1 | h1
        · exact absurd h1 hxy
        · exact h1
      · exact hy _ hb

theorem pairwise_sortLe {α : Type} (le : α → α → Bool)
    (htrans : ∀ a b c, le a b = true → le b c = true → le a c = true)
    (htotal : ∀ a b, le a b = true ∨ le b a = true)
    (l : List α) :
    (sortLe le l).Pairwise (fun a b => le a b = true) := by
  induction l with
  | nil => simp [sortLe]
  | cons x xs ih => exact pairwise_insertLe le htrans htotal x _ ih

theorem dedupFirst_eq_nil_iff (l : List String) : dedupFirst l = [] ↔ l = [] := by
  cases l <;> simp [dedupFirst]

theorem dedupFirst_length_le (l : List String) : (dedupFirst l).length ≤ l.length := by
  induction l with
  | nil => simp [dedupFirst]
  | cons x t ih =>
    rw [dedupFirst]
    simp only [List.length_cons]
    have := List.length_filter_le (fun y => ¬ y == x) (dedupFirst t)
    omega

theorem mem_dedupFirst (l : List String) (a : String) : a ∈ dedupFirst l ↔ a ∈ l := by
  induction l with
  | nil => simp [dedupFirst]
  | cons x t ih =>
    rw [dedupFirst]
    simp only [List.mem_cons, List.mem_filter, ih]
    by_cases hax : a = x
    · simp [hax]
    · simp [hax]

theorem dedupFirst_nodup (l : List String) : (dedupFirst l).Nodup := by
  induction l with
  | nil => simp [dedupFirst]
  | cons x t ih =>
    rw [dedupFirst]
    refine List.Pairwise.cons ?_ (ih.filter _)
    intro y hy
    have := (List.mem_filter.mp hy).2
    simp at this
    exact fun hxy => this hxy.symm

theorem eq_of_dedupFirst_singleton (l : List String) (k : String)
    (h : dedupFirst l = [k]) : ∀ x ∈ l, x = k := by
  cases l with
  | nil => simp
  | cons x t =>
    rw [dedupFirst, List.cons_eq_cons] at h
    obtain ⟨rfl, h2⟩ := h
    intro y hy
    rcases List.mem_cons.mp hy with h1 | h1
    · exact h1
    · have hyd : y ∈ dedupFirst t := (mem_dedupFirst t y).mpr h1
      by_contra hne
      have : y ∈ (dedupFirst t).filter (fun z => ¬ z == x) :=
        List.mem_filter.mpr ⟨hyd, by simpa using hne⟩
      rw [h2] at this
      simp at this

/-! ## Association-list lemmas -/

theorem getField_setField_same (f : List (String × String)) (k v : String) :
    getField (setField f k v) k = some v := by
  induction f with
  | nil => simp [setField, getField]
  | cons p t ih =>
    obtain ⟨k0, v0⟩ := p
    rw [setField]
    by_cases h : (k0 == k) = true
    · rw [if_pos h]
      simp [getField]
    · rw [if_neg h]
      simp only [getField, List.find?] at ih ⊢
      rw [show ((k0, v0).1 == k) = false from by simpa using h]
      exact ih

theorem getField_setField_other (f : List (String × String)) (k v x : String)
    (hx : x ≠ k) :
    getField (setField f k v) x = getField f x := by
  induction f with
  | nil =>
    simp only [setField, getField, List.find?]
    rw [show ((k, v).1 == x) = false from by simpa using fun h => hx h.symm]
  | cons p t ih =>
    obtain ⟨k0, v0⟩ := p
    rw [setField]
    by_cases h : (k0 == k) = true
    · rw [if_pos h]
      have hk0 : k0 = k := by simpa using h
      simp only [getField, List.find?]
      rw [show ((k, v).1 == x) = false from by simpa using fun hh => hx hh.symm,
        show ((k0, v0).1 == x) = false from by
          simpa using fun hh => hx (hk0 ▸ hh).symm]
    · rw [if_neg h]
      simp only [getField, List.find?] at ih ⊢
      cases hcase : ((k0, v0).1 == x) <;> simp [hcase, ih]

theorem getField_some_mem_keys (f : List (String × String)) (k v : String)
    (h : getField f k = some v) : k ∈ fieldKeys f := by
  induction f with
  | nil => simp [getField] at h
  | cons p t ih =>
    simp only [getField, List.find?] at h ih
    cases hcase : (p.1 == k) with
    | true =>
      have : p.1 = k := by simpa using hcase
      simp [fieldKeys, ← this]
    | false =>
      rw [hcase] at h
      have := ih h
      simp only [fieldKeys, List.map, List.mem_cons]
      right
      simpa [fieldKeys] using this

theorem fieldKeys_setField (f : List (String × String)) (k v : String)
    (h : k ∈ fieldKeys f) :
    fieldKeys (setField f k v) = fieldKeys f := by
  induction f with
  | nil => simp [fieldKeys] at h
  | cons p t ih =>
    obtain ⟨k0, v0⟩ := p
    rw [setField]
    by_cases hk : (k0 == k) = true
    · rw [if_pos hk]
      have : k0 = k := by simpa using hk
      simp [fieldKeys, this]
    · rw [if_neg hk]
      have hkt : k ∈ fieldKeys t := by
        have hexp : fieldKeys ((k0, v0) :: t) = k0 :: fieldKeys t := rfl
        rw [hexp] at h
        rcases List.mem_cons.mp h with h1 | h1
        · exact absurd (by simp [h1]) hk
        · exact h1
      show k0 :: fieldKeys (setField t k v) = k0 :: fieldKeys t
      rw [ih hkt]

theorem filterMap_singleton_key {β : Type} (l : List String) (t : String)
    (f : String → Option β) (hnd : l.Nodup) (hmem : t ∈ l)
    (hf : ∀ x, x ≠ t → f x = none) :
    l.filterMap f = (f t).toList := by
  induction l with
  | nil => cases hmem
  | cons x xs ih =>
    rcases List.mem_cons.mp hmem with h1 | h1
    · have hxs : xs.filterMap f = [] := by
        rw [List.filterMap_eq_nil_iff]
        intro y hy
        refine hf y (fun hyt => ?_)
        exact (List.nodup_cons.mp hnd).1 (h1 ▸ hyt ▸ hy)
      rw [← h1]
      cases hft : f t with
      | none => simp [List.filterMap_cons, hft, hxs]
      | some b => simp [List.filterMap_cons, hft, hxs]
    · have hxt : x ≠ t := fun he => (List.nodup_cons.mp hnd).1 (he ▸ h1)
      simp [List.filterMap_cons, hf x hxt, ih (List.nodup_cons.mp hnd).2 h1]

theorem sameSet_refl (a : List String) : ChangeDetector.sameSet a a = true := by
  simp only [ChangeDetector.sameSet, Bool.and_eq_true, List.all_eq_true]
  exact ⟨fun x hx => by simpa using hx, fun x hx => by simpa using hx⟩

/-- `detect_changes` on singleton corpora sharing one id reduces to the
pairwise comparison followed by the urgent-deadline scan. -/
theorem detect_changes_pair (parseDate : String → Option Int) (now : Int)
    (c p : RFP) (hid : c.id = p.id) :
    ChangeDetector.detect_changes parseDate now [c] [p] =
      ChangeDetector.compare_rfps parseDate now c p ++
        ChangeDetector.detect_urgent_deadlines parseDate now [c] := by
  simp [ChangeDetector.detect_changes, ChangeDetector.idKeys, ChangeDetector.byId,
    dedupFirst, hid]

/-! ## C9 helper lemmas -/

theorem scanKeywords_eq (tl : String) (kws : List String) (w : ℚ) (acc : List String × ℚ) :
    Validation.scanKeywords tl kws w acc =
      (acc.1 ++ kws.filter (fun k => strContains tl k),
        acc.2 + w * ((kws.filter (fun k => strContains tl k)).length : ℚ)) := by
  induction kws generalizing acc with
  | nil => simp [Validation.scanKeywords]
  | cons k ks ih =>
    simp only [Validation.scanKeywords, List.foldl_cons] at *
    by_cases h : strContains tl k = true
    · rw [if_pos h, ih, List.filter_cons, if_pos h]
      refine Prod.ext ?_ ?_
      · simp
      · simp only [List.length_cons]
        push_cast
        ring
    · rw [if_neg h, ih, List.filter_cons, if_neg h]

theorem kw_nodup_oly : Validation.olympic_keywords.Nodup := by decide

theorem kw_nodup_surv : Validation.surveillance_keywords.Nodup := by decide

theorem kw_nodup_tech : Validation.tech_keywords.Nodup := by decide

theorem kw_nodup_sec : Validation.security_keywords.Nodup := by decide

theorem kw_disj_oly_surv :
    ∀ k ∈ Validation.olympic_keywords, k ∉ Validation.surveillance_keywords := by decide

theorem kw_disj_oly_tech :
    ∀ k ∈ Validation.olympic_keywords, k ∉ Validation.tech_keywords := by decide

theorem kw_disj_oly_sec :
    ∀ k ∈ Validation.olympic_keywords, k ∉ Validation.security_keywords := by decide

theorem kw_disj_surv_tech :
    ∀ k ∈ Validation.surveillance_keywords, k ∉ Validation.tech_keywords := by decide

theorem kw_disj_tech_sec :
    ∀ k ∈ Validation.tech_keywords, k ∉ Validation.security_keywords := by decide

/-- The only keyword occurring in both the surveillance and the
security-service list is `"screening"`. -/
theorem kw_surv_sec_screening :
    ∀ k ∈ Validation.surveillance_keywords,
      k ∈ Validation.security_keywords → k = "screening" := by decide

/-- If the four per-category keyword scans together match at least two
keywords but fewer than two distinct ones, then every match is `"screening"`,
which sits in both the surveillance and the security lists. -/
theorem relevance_screening_case (tl : String)
    (h2 : 2 ≤ ((Validation.olympic_keywords.filter (fun k => strContains tl k))
        ++ (Validation.surveillance_keywords.filter (fun k => strContains tl k))
        ++ (Validation.tech_keywords.filter (fun k => strContains tl k))
        ++ (Validation.security_keywords.filter (fun k => strContains tl k))).length)
    (hd : (dedupFirst ((Validation.olympic_keywords.filter (fun k => strContains tl k))
        ++ (Validation.surveillance_keywords.filter (fun k => strContains tl k))
        ++ (Validation.tech_keywords.filter (fun k => strContains tl k))
        ++ (Validation.security_keywords.filter (fun k => strContains tl k)))).length ≤ 1) :
    "screening" ∈ Validation.surveillance_keywords.filter (fun k => strContains tl k) ∧
      "screening" ∈ Validation.security_keywords.filter (fun k => strContains tl k) := by
  set p := fun k => strContains tl k with hp
  set mo := Validation.olympic_keywords.filter p with hmo
  set ms := Validation.surveillance_keywords.filter p with hms
  set mt := Validation.tech_keywords.filter p with hmt
  set mc := Validation.security_keywords.filter p with hmc
  set matched := mo ++ ms ++ mt ++ mc with hmatched
  have hne : matched ≠ [] := by
    intro h
    rw [h] at h2
    simp at h2
  have hdne : dedupFirst matched ≠ [] :=
    fun h => hne ((dedupFirst_eq_nil_iff _).mp h)
  obtain ⟨k, hk⟩ : ∃ k, dedupFirst matched = [k] := by
    match hexp : dedupFirst matched with
    | [] => exact absurd hexp hdne
    | [k] => exact ⟨k, rfl⟩
    | k1 :: k2 :: t =>
      rw [hexp] at hd
      simp at hd
  have hall : ∀ x ∈ matched, x = k := eq_of_dedupFirst_singleton _ _ hk
  have hcount : matched.count k = matched.length :=
    List.count_eq_length.mpr (fun b hb => (hall b hb).symm)
  have hcount2 : 2 ≤ matched.count k := hcount ▸ h2
  rw [hmatched, List.count_append, List.count_append, List.count_append] at hcount2
  have hbo : mo.count k ≤ 1 :=
    List.nodup_iff_count_le_one.mp (kw_nodup_oly.filter p) k
  have hbs : ms.count k ≤ 1 :=
    List.nodup_iff_count_le_one.mp (kw_nodup_surv.filter p) k
  have hbt : mt.count k ≤ 1 :=
    List.nodup_iff_count_le_one.mp (kw_nodup_tech.filter p) k
  have hbc : mc.count k ≤ 1 :=
    List.nodup_iff_count_le_one.mp (kw_nodup_sec.filter p) k
  have hpair : (1 ≤ mo.count k ∧ 1 ≤ ms.count k) ∨ (1 ≤ mo.count k ∧ 1 ≤ mt.count k) ∨
      (1 ≤ mo.count k ∧ 1 ≤ mc.count k) ∨ (1 ≤ ms.count k ∧ 1 ≤ mt.count k) ∨
      (1 ≤ ms.count k ∧ 1 ≤ mc.count k) ∨ (1 ≤ mt.count k ∧ 1 ≤ mc.count k) := by
    omega
  have hmem : ∀ {l : List String}, 1 ≤ l.count k → k ∈ l :=
    fun h => List.count_pos_iff.mp (by omega)
  rcases hpair with ⟨ha, hb⟩ | ⟨ha, hb⟩ | ⟨ha, hb⟩ | ⟨ha, hb⟩ | ⟨ha, hb⟩ | ⟨ha, hb⟩
  · exact absurd (List.mem_of_mem_filter (hmem hb))
      (kw_disj_oly_surv k (List.mem_of_mem_filter (hmem ha)))
  · exact absurd (List.mem_of_mem_filter (hmem hb))
      (kw_disj_oly_tech k (List.mem_of_mem_filter (hmem ha)))
  · exact absurd (List.mem_of_mem_filter (hmem hb))
      (kw_disj_oly_sec k (List.mem_of_mem_filter (hmem ha)))
  · exact absurd (List.mem_of_mem_filter (hmem hb))
      (kw_disj_surv_tech k (List.mem_of_mem_filter (hmem ha)))
  · have hks : k = "screening" :=
      kw_surv_sec_screening k (List.mem_of_mem_filter (hmem ha))
        (List.mem_of_mem_filter (hmem hb))
    rw [← hks]
    exact ⟨hmem ha, hmem hb⟩
  · exact absurd (List.mem_of_mem_filter (hmem hb))
      (kw_disj_tech_sec k (List.mem_of_mem_filter (hmem ha)))

/-- The source's cross-category test `any(k in base for k in matched_keywords)`
agrees with "the per-category scan of `base` found something", for each of the
four keyword lists. -/
theorem matched_any_contains (tl : String) (base : List String)
    (hbase : base = Validation.olympic_keywords ∨ base = Validation.surveillance_keywords ∨
      base = Validation.tech_keywords ∨ base = Validation.security_keywords) :
    (((Validation.olympic_keywords.filter (fun k => strContains tl k))
        ++ (Validation.surveillance_keywords.filter (fun k => strContains tl k))
        ++ (Validation.tech_keywords.filter (fun k => strContains tl k))
        ++ (Validation.security_keywords.filter (fun k => strContains tl k))).any
          (fun k => base.contains k) = true)
      ↔ base.filter (fun k => strContains tl k) ≠ [] := by
  constructor
  · rw [List.any_eq_true]
    rintro ⟨k, hk, hcont⟩
    have hpk : strContains tl k = true := by
      simp only [List.mem_append] at hk
      rcases hk with ((h1 | h1) | h1) | h1 <;> exact List.of_mem_filter h1
    have hkb : k ∈ base := by simpa using hcont
    intro hnil
    have : k ∈ base.filter (fun k => strContains tl k) := List.mem_filter.mpr ⟨hkb, hpk⟩
    rw [hnil] at this
    simp at this
  · intro hne
    obtain ⟨k, hk⟩ := List.exists_mem_of_ne_nil _ hne
    rw [List.any_eq_true]
    refine ⟨k, ?_, by simpa using List.mem_of_mem_filter hk⟩
    simp only [List.mem_append]
    rcases hbase with rfl | rfl | rfl | rfl
    · exact Or.inl (Or.inl (Or.inl hk))
    · exact Or.inl (Or.inl (Or.inr hk))
    · exact Or.inl (Or.inr hk)
    · exact Or.inr hk

/-- Equality of the source's normalized score (`min((if cats ≥ 2 then raw*1.5
else raw)/10, 1)`) with the claim's formulation (`min(raw·bonus/10, 1)`),
given that the raw totals agree. -/
theorem min_div_bonus_eq {c : Prop} [Decidable c] (r1 r2 : ℚ) (h : r1 = r2) :
    min ((if c then r1 * 1.5 else r1) / 10.0) 1.0 =
      min (r2 * (if c then 1.5 else 1) / 10) 1 := by
  by_cases hc : c
  · rw [if_pos hc, if_pos hc, h]
    norm_num
  · rw [if_neg hc, if_neg hc, h]
    norm_num

/-- Abstract form of the relevance-score lower bound in the "one keyword, two
categories" case: with the surveillance and security category indicators both
set and at least one surveillance and one security match, the normalized score
reaches 0.3. -/
theorem min_if_bonus_ge (i1 i3 : ℕ) {c2 c4 : Prop} [Decidable c2] [Decidable c4]
    (a b t c : ℚ) (h2 : c2) (h4 : c4) (hb : 1 ≤ b) (hc : 1 ≤ c)
    (ha : 0 ≤ a) (ht : 0 ≤ t) :
    min ((if 2 ≤ i1 + (if c2 then 1 else 0) + i3 + (if c4 then 1 else 0) then
        (0.0 + 2.0 * a + 3.0 * b + 1.0 * t + 1.5 * c) * 1.5
      else 0.0 + 2.0 * a + 3.0 * b + 1.0 * t + 1.5 * c) / 10.0) 1.0 ≥ 0.3 := by
  have hcats : 2 ≤ i1 + (if c2 then 1 else 0) + i3 + (if c4 then 1 else 0) := by
    rw [if_pos h2, if_pos h4]
    omega
  rw [ge_iff_le, le_min_iff]
  refine ⟨?_, by norm_num⟩
  rw [if_pos hcats, le_div_iff₀ (by norm_num : (0 : ℚ) < 10.0)]
  linarith

theorem if_nil_default_ne_nil (L : List String) :
    (if L = [] then ["General"] else L) ≠ [] := by
  split
  · simp
  · assumption

/-- `_categorize_rfp` never returns an empty category list. -/
theorem categorize_rfp_ne_nil (d : List (String × String)) :
    RFPScraper.categorize_rfp d ≠ [] := by
  simp only [RFPScraper.categorize_rfp]
  exact if_nil_default_ne_nil _

/-! ## C9: relevance categorization -/

/-- C9: `validate_olympic_relevance` scores each matched Olympic keyword ×2,
each surveillance keyword ×3, each general-tech keyword ×1 and each
security-service keyword ×1.5, multiplies the raw total by 1.5 when keywords
from at least 2 distinct categories matched, and normalizes the score to
`min(raw/10, 1)`; the text is relevant iff the normalized score is ≥ 0.3 or
at least 2 distinct keywords matched; and `_categorize_rfp` never assigns an
empty category list (defaulting to `["General"]`). -/
theorem C9_relevance_scoring (text : String) :
    (Validation.validate_olympic_relevance text).2.2 =
        min (relevanceRawScore text *
          (if 2 ≤ relevanceCategoryCount text then 1.5 else 1) / 10) 1
    ∧ ((Validation.validate_olympic_relevance text).1 = true ↔
        ((Validation.validate_olympic_relevance text).2.2 ≥ 0.3 ∨
          2 ≤ (dedupFirst (Validation.validate_olympic_relevance text).2.1).length))
    ∧ (∀ data : List (String × String), RFPScraper.categorize_rfp data ≠ []) := by
  refine ⟨?_, ?_, categorize_rfp_ne_nil⟩
  · by_cases htext : text = ""
    · subst htext
      have h1 : keywordMatches "" Validation.olympic_keywords = [] := by decide
      have h2 : keywordMatches "" Validation.surveillance_keywords = [] := by decide
      have h3 : keywordMatches "" Validation.tech_keywords = [] := by decide
      have h4 : keywordMatches "" Validation.security_keywords = [] := by decide
      simp only [Validation.validate_olympic_relevance, if_pos rfl, relevanceRawScore,
        relevanceCategoryCount, h1, h2, h3, h4]
      norm_num
    · simp only [Validation.validate_olympic_relevance, if_neg htext, scanKeywords_eq]
      simp only [List.nil_append]
      simp only [matched_any_contains (pyLower text) _ (Or.inl rfl),
        matched_any_contains (pyLower text) _ (Or.inr (Or.inl rfl)),
        matched_any_contains (pyLower text) _ (Or.inr (Or.inr (Or.inl rfl))),
        matched_any_contains (pyLower text) _ (Or.inr (Or.inr (Or.inr rfl)))]
      simp only [relevanceRawScore, relevanceCategoryCount, keywordMatches]
      exact min_div_bonus_eq _ _ (by ring)
  · by_cases htext : text = ""
    · subst htext
      have hdn : dedupFirst ([] : List String) = [] := (dedupFirst_eq_nil_iff []).mpr rfl
      norm_num [Validation.validate_olympic_relevance, hdn]
    · simp only [Validation.validate_olympic_relevance, if_neg htext, scanKeywords_eq]
      simp only [List.nil_append, Bool.or_eq_true, decide_eq_true_eq]
      constructor
      · rintro (hs | hlen)
        · exact Or.inl hs
        · by_cases hd : 2 ≤ (dedupFirst
              ((Validation.olympic_keywords.filter (fun k => strContains (pyLower text) k))
                ++ (Validation.surveillance_keywords.filter (fun k => strContains (pyLower text) k))
                ++ (Validation.tech_keywords.filter (fun k => strContains (pyLower text) k))
                ++ (Validation.security_keywords.filter (fun k => strContains (pyLower text) k)))).length
          · exact Or.inr hd
          · left
            obtain ⟨hss, hsc⟩ := relevance_screening_case (pyLower text) hlen (by omega)
            have hanys := (matched_any_contains (pyLower text) _ (Or.inr (Or.inl rfl))).mpr
              (List.ne_nil_of_mem hss)
            have hanyc := (matched_any_contains (pyLower text) _ (Or.inr (Or.inr (Or.inr rfl)))).mpr
              (List.ne_nil_of_mem hsc)
            have h1s : (1 : ℚ) ≤ ((Validation.surveillance_keywords.filter
                (fun k => strContains (pyLower text) k)).length : ℚ) := by
              exact_mod_cast List.length_pos.mpr (List.ne_nil_of_mem hss)
            have h1c : (1 : ℚ) ≤ ((Validation.security_keywords.filter
                (fun k => strContains (pyLower text) k)).length : ℚ) := by
              exact_mod_cast List.length_pos.mpr (List.ne_nil_of_mem hsc)
            have ha : (0 : ℚ) ≤ ((Validation.olympic_keywords.filter
                (fun k => strContains (pyLower text) k)).length : ℚ) := by positivity
            have hb : (0 : ℚ) ≤ ((Validation.tech_keywords.filter
                (fun k => strContains (pyLower text) k)).length : ℚ) := by positivity
            exact min_if_bonus_ge _ _ _ _ _ _ hanys hanyc h1s h1c ha hb
      · rintro (hs | hd)
        · exact Or.inl hs
        · exact Or.inr (le_trans hd (dedupFirst_length_le _))

/-! ## C8: robots.txt denial -/

/-- C8 (counterexample): robots.txt denial makes `fetch_page` fail with a
`ScrapingError` ("Access disallowed by robots.txt") — the error taxonomy of
`models/errors.py` has no `RobotsDisallowed` class, so the claimed error
class does not exist and the actual one is `ScrapingError`. -/
theorem C8_counterexample :
    BaseScraper.fetch_page true (fun _ _ => false) "LA2028-RFP-Monitor/1.0"
        (fun _ => Except.ok "<html></html>") 3 siteC8 "https://la28.example.gov/rfps/1"
      = Except.error (RFPMonitorError.scrapingError "la28"
          "https://la28.example.gov/rfps/1" "Access disallowed by robots.txt") := by
  rfl

/-- C8 (amended): when robots compliance is on and robots.txt disallows the
session's user agent for the URL, `fetch_page` fails with a `ScrapingError`
carrying the message "Access disallowed by robots.txt", whatever the fetch
backend and retry budget — the page is never fetched and the retry loop is
never entered. -/
theorem C8_corrected_robots_scraping_error (can_fetch : String → String → Bool)
    (user_agent : String) (attempt : Nat → Except String String)
    (max_retries : Nat) (site : SiteConfig) (url : String)
    (hdeny : can_fetch user_agent url = false) :
    BaseScraper.fetch_page true can_fetch user_agent attempt max_retries site url =
      Except.error (RFPMonitorError.scrapingError site.id url
        "Access disallowed by robots.txt") := by
  have hc : BaseScraper.check_robots_txt true can_fetch user_agent url = false := by
    simp [BaseScraper.check_robots_txt, hdeny]
  rw [BaseScraper.fetch_page, if_pos hc]

/-- C8 (witness): the amended theorem at a concrete denied fetch, with a
backend whose every attempt would throw — the robots error wins without any
attempt being made. -/
theorem C8_witness :
    BaseScraper.fetch_page true (fun _ _ => false) "LA2028-RFP-Monitor/1.0"
        (fun n => Except.error ("boom " ++ toString n)) 5 siteC8
        "https://la28.example.gov/rfps/2"
      = Except.error (RFPMonitorError.scrapingError siteC8.id
          "https://la28.example.gov/rfps/2" "Access disallowed by robots.txt") :=
  C8_corrected_robots_scraping_error _ _ _ _ _ _ rfl

/-! ## C5: partial extraction -/

theorem nodup_map_inj {α β : Type} (f : α → β) (l : List α)
    (h : (l.map f).Nodup) (a b : α) (ha : a ∈ l) (hb : b ∈ l) (hf : f a = f b) :
    a = b := by
  induction l with
  | nil => cases ha
  | cons x t ih =>
    rw [List.map_cons, List.nodup_cons] at h
    rcases List.mem_cons.mp ha with h1 | h1 <;> rcases List.mem_cons.mp hb with h2 | h2
    · rw [h1, h2]
    · exact absurd (List.mem_map.mpr ⟨b, h2, by rw [← hf, ← h1]⟩) h.1
    · exact absurd (List.mem_map.mpr ⟨a, h1, by rw [hf, ← h2]⟩) h.1
    · exact ih h.2 h1 h2

theorem try_fallbacks_eq_first_resolving
    (ext : String → DataType → Except String (Option String)) (dt : DataType)
    (l : List String) :
    BaseScraper.try_fallbacks ext dt l = first_resolving ext dt l := by
  induction l with
  | nil => rfl
  | cons s rest ih =>
    rw [BaseScraper.try_fallbacks, first_resolving]
    cases hc : ext s dt with
    | error e => rfl
    | ok v =>
      cases v with
      | none => exact ih
      | some w => rfl

theorem extract_data_fst (ext : String → DataType → Except String (Option String))
    (mappings : List FieldMapping) :
    (BaseScraper.extract_data ext mappings).1 =
      mappings.filterMap (fun m =>
        match BaseScraper.resolve_field ext m with
        | Except.ok (some v) => some (m.field_alias, v)
        | _ => none) := by
  induction mappings with
  | nil => rfl
  | cons m rest ih =>
    rw [BaseScraper.extract_data, List.filterMap_cons]
    cases hc : BaseScraper.resolve_field ext m with
    | error e => simpa [hc] using ih
    | ok v =>
      cases v with
      | none => simpa [hc] using ih
      | some w => simpa [hc] using ih

theorem extract_data_snd (ext : String → DataType → Except String (Option String))
    (mappings : List FieldMapping) :
    (BaseScraper.extract_data ext mappings).2 =
      mappings.map (fun m =>
        match BaseScraper.resolve_field ext m with
        | Except.error e => m.add_validation_error ("Extraction failed: " ++ e)
        | _ => m) := by
  induction mappings with
  | nil => rfl
  | cons m rest ih =>
    rw [BaseScraper.extract_data, List.map_cons]
    cases hc : BaseScraper.resolve_field ext m with
    | error e => simpa [hc] using ih
    | ok v =>
      cases v with
      | none => simpa [hc] using ih
      | some w => simpa [hc] using ih

/-- C5 (counterexample): a mapping none of whose selectors resolves (all
return no value without raising) is omitted from the result, yet NO
validation error is recorded on it — `add_validation_error` only runs when
extraction raises. -/
theorem C5_counterexample :
    (BaseScraper.extract_data extC5none [mC5]).1 = [] ∧
    (BaseScraper.extract_data extC5none [mC5]).2 = [mC5] ∧
    mC5.fallback_selectors ≠ [] ∧
    mC5.validation_errors = [] :=
  ⟨rfl, rfl, by decide, rfl⟩

/-- C5 (amended): `extract_data` resolves each mapping by trying the primary
selector first and then each fallback in declared order, taking the first
value that resolves; the returned map holds exactly the aliases of resolved
mappings with those values; a validation error is recorded on a mapping
exactly when its extraction raised (a mapping that merely resolves nowhere
is omitted with no error recorded); and every mapping is processed whatever
happened to the ones before it. -/
theorem C5_corrected_extract_data
    (ext : String → DataType → Except String (Option String))
    (mappings : List FieldMapping) :
    (∀ m : FieldMapping, BaseScraper.resolve_field ext m =
      first_resolving ext m.data_type (m.selector :: m.fallback_selectors))
    ∧ (BaseScraper.extract_data ext mappings).1 =
        mappings.filterMap (fun m =>
          match BaseScraper.resolve_field ext m with
          | Except.ok (some v) => some (m.field_alias, v)
          | _ => none)
    ∧ (BaseScraper.extract_data ext mappings).2 =
        mappings.map (fun m =>
          match BaseScraper.resolve_field ext m with
          | Except.error e => m.add_validation_error ("Extraction failed: " ++ e)
          | _ => m)
    ∧ (∀ m ∈ mappings, (mappings.map FieldMapping.field_alias).Nodup →
        (∀ v, BaseScraper.resolve_field ext m ≠ Except.ok (some v)) →
        getField (BaseScraper.extract_data ext mappings).1 m.field_alias = none) := by
  have h1 : ∀ m : FieldMapping, BaseScraper.resolve_field ext m =
      first_resolving ext m.data_type (m.selector :: m.fallback_selectors) := by
    intro m
    rw [BaseScraper.resolve_field, first_resolving]
    cases hc : ext m.selector m.data_type with
    | error e => rfl
    | ok v =>
      cases v with
      | none => exact try_fallbacks_eq_first_resolving ext m.data_type m.fallback_selectors
      | some w => rfl
  have h2 := extract_data_fst ext mappings
  have h3 := extract_data_snd ext mappings
  refine ⟨h1, h2, h3, ?_⟩
  intro m hm hnd hnores
  rw [h2, getField]
  rw [show (List.find? (fun p => p.1 == m.field_alias)
      (mappings.filterMap (fun m2 =>
        match BaseScraper.resolve_field ext m2 with
        | Except.ok (some v) => some (m2.field_alias, v)
        | _ => none))) = none from ?_]
  · rfl
  · rw [List.find?_eq_none]
    intro p hp
    obtain ⟨m2, hm2, hmap⟩ := List.mem_filterMap.mp hp
    cases hres : BaseScraper.resolve_field ext m2 with
    | error e =>
      rw [hres] at hmap
      cases hmap
    | ok v =>
      cases v with
      | none =>
        rw [hres] at hmap
        cases hmap
      | some w =>
        rw [hres] at hmap
        cases hmap
        intro hbeq
        have halias : m2.field_alias = m.field_alias := by simpa using hbeq
        have hmm : m2 = m := nodup_map_inj _ _ hnd m2 m hm2 hm halias
        exact hnores w (hmm ▸ hres)

/-- C5 (witness): the amended characterization applied to a concrete pair of
mappings — one resolving via its primary selector, one resolving nowhere —
with the non-resolving mapping's alias absent from the result. -/
theorem C5_witness :
    ((BaseScraper.extract_data extC5w [mC5b, mC5]).1 =
      [mC5b, mC5].filterMap (fun m =>
        match BaseScraper.resolve_field extC5w m with
        | Except.ok (some v) => some (m.field_alias, v)
        | _ => none)) ∧
    mC5 ∈ [mC5b, mC5] ∧
    getField (BaseScraper.extract_data extC5w [mC5b, mC5]).1 mC5.field_alias = none :=
  ⟨(C5_corrected_extract_data extC5w [mC5b, mC5]).2.1,
   List.mem_cons_of_mem _ (List.mem_cons_self _ _),
   (C5_corrected_extract_data extC5w [mC5b, mC5]).2.2.2 mC5
     (List.mem_cons_of_mem _ (List.mem_cons_self _ _)) (by decide)
     (fun v h => by simp [BaseScraper.resolve_field, extC5w, mC5,
       BaseScraper.try_fallbacks] at h)⟩

/-! ## C10: `DataManager.add_rfp` uniqueness -/

theorem dup_check_iff (store : List RFP) (r : RFP) :
    DataManager.dup_check store r = true ↔
      ∃ e ∈ store, e.id = r.id ∨ e.url = r.url := by
  induction store with
  | nil => simp [DataManager.dup_check]
  | cons e t ih =>
    rw [DataManager.dup_check]
    by_cases h1 : (e.id == r.id) = true
    · simp only [if_pos h1]
      exact ⟨fun _ => ⟨e, List.mem_cons_self e t, Or.inl (by simpa using h1)⟩,
        fun _ => trivial⟩
    · rw [if_neg h1]
      by_cases h2 : (e.url == r.url) = true
      · simp only [if_pos h2]
        exact ⟨fun _ => ⟨e, List.mem_cons_self e t, Or.inr (by simpa using h2)⟩,
          fun _ => trivial⟩
      · rw [if_neg h2, ih]
        constructor
        · rintro ⟨x, hx, hor⟩
          exact ⟨x, List.mem_cons_of_mem _ hx, hor⟩
        · rintro ⟨x, hx, hor⟩
          rcases List.mem_cons.mp hx with hxe | hx
          · rcases hor with h | h
            · exact absurd (beq_iff_eq.mpr (hxe ▸ h)) h1
            · exact absurd (beq_iff_eq.mpr (hxe ▸ h)) h2
          · exact ⟨x, hx, hor⟩

/-- C10: `add_rfp` leaves the store unchanged when a stored RFP shares the
new RFP's id or url (even under a different id), appends exactly the new RFP
otherwise, and therefore preserves both id-uniqueness and url-uniqueness of
the store. -/
theorem C10_add_rfp_uniqueness (store : List RFP) (r : RFP) :
    ((∃ e ∈ store, e.id = r.id ∨ e.url = r.url) →
      DataManager.add_rfp store r = store)
    ∧ ((∀ e ∈ store, e.id ≠ r.id ∧ e.url ≠ r.url) →
      DataManager.add_rfp store r = store ++ [r])
    ∧ ((store.map RFP.id).Nodup → ((DataManager.add_rfp store r).map RFP.id).Nodup)
    ∧ ((store.map RFP.url).Nodup → ((DataManager.add_rfp store r).map RFP.url).Nodup) := by
  have happend : DataManager.dup_check store r = false →
      DataManager.add_rfp store r = store ++ [r] := by
    intro hdup
    rw [DataManager.add_rfp, hdup]
    simp
  refine ⟨?_, ?_, ?_, ?_⟩
  · intro h
    rw [DataManager.add_rfp, if_pos ((dup_check_iff store r).mpr h)]
  · intro h
    refine happend ?_
    rw [← Bool.not_eq_true, dup_check_iff]
    rintro ⟨e, he, hor⟩
    rcases hor with h1 | h1
    · exact (h e he).1 h1
    · exact (h e he).2 h1
  · intro hnd
    rw [DataManager.add_rfp]
    by_cases hd : DataManager.dup_check store r = true
    · rw [if_pos hd]
      exact hnd
    · rw [if_neg hd]
      rw [List.map_append, List.nodup_append]
      refine ⟨hnd, by simp, ?_⟩
      intro a ha hb
      simp only [List.map_cons, List.map_nil, List.mem_singleton] at hb
      obtain ⟨e, he, hei⟩ := List.mem_map.mp ha
      exact hd ((dup_check_iff store r).mpr ⟨e, he, Or.inl (by rw [hei, hb])⟩)
  · intro hnd
    rw [DataManager.add_rfp]
    by_cases hd : DataManager.dup_check store r = true
    · rw [if_pos hd]
      exact hnd
    · rw [if_neg hd]
      rw [List.map_append, List.nodup_append]
      refine ⟨hnd, by simp, ?_⟩
      intro a ha hb
      simp only [List.map_cons, List.map_nil, List.mem_singleton] at hb
      obtain ⟨e, he, hei⟩ := List.mem_map.mp ha
      exact hd ((dup_check_iff store r).mpr ⟨e, he, Or.inr (by rw [hei, hb])⟩)

/-- C10 (witness): a fresh RFP is appended; an RFP re-posted under a new id
but the same url is skipped and the store is unchanged. -/
theorem C10_witness :
    (∀ e ∈ [rfpC10a], e.id ≠ rfpC10b.id ∧ e.url ≠ rfpC10b.url) ∧
    DataManager.add_rfp [rfpC10a] rfpC10b = [rfpC10a] ++ [rfpC10b] ∧
    (∃ e ∈ [rfpC10a], e.id = rfpC10c.id ∨ e.url = rfpC10c.url) ∧
    DataManager.add_rfp [rfpC10a] rfpC10c = [rfpC10a] :=
  ⟨by decide, (C10_add_rfp_uniqueness [rfpC10a] rfpC10b).2.1 (by decide),
   by decide, (C10_add_rfp_uniqueness [rfpC10a] rfpC10c).1 (by decide)⟩

/-! ## C3: re-scrape idempotence -/

/-- C3 (code bug): re-scraping unchanged content is NOT a no-op for an RFP
that a previous run updated field-by-field.  `RFP.update_field` recomputes
the stored hash in `RFP.generate_content_hash` format
(`sha256("title:url:json")`) while `_process_rfp_url` compares against
`RFPScraper._generate_content_hash` format (`sha256(str(sorted_dict))`), so
the stored hash never matches and the identical re-scrape is classified as
an update (`is_updated = True`) — though no `change_history` entry is
appended and the stored `content_hash` stays unchanged. -/
theorem C3_code_bug_rescrape_counted_updated :
    rfpC3stored.extracted_fields = fieldsC3 ∧
    rfpC3stored.content_hash ≠ RFPScraper.scraper_content_hash fieldsC3 ∧
    (RFPScraper.process_rfp_url 0 siteC3 [rfpC3stored] urlC3 fieldsC3).1.is_new = false ∧
    (RFPScraper.process_rfp_url 0 siteC3 [rfpC3stored] urlC3 fieldsC3).1.is_updated = true ∧
    (RFPScraper.process_rfp_url 0 siteC3 [rfpC3stored] urlC3 fieldsC3).1.rfp.content_hash
      = rfpC3stored.content_hash ∧
    (RFPScraper.process_rfp_url 0 siteC3 [rfpC3stored] urlC3 fieldsC3).1.rfp.change_history
      = rfpC3stored.change_history := by
  decide

/-! ## C1: status-change records -/

/-- C1 (counterexample): with previous = [RFP A, status "Active"] and current
= the same RFP after `update_field("status", "Withdrawn")` (content hash
recomputed, as the update pipeline does), `detect_changes` returns TWO
records — a CONTENT_UPDATE for the status field (emitted because the content
hashes differ) followed by the STATUS_CHANGE — not exactly one. -/
theorem C1_counterexample :
    getFieldD rfpC1prev.extracted_fields "status" "" = "Active" ∧
    getFieldD rfpC1cur.extracted_fields "status" "" = "Withdrawn" ∧
    rfpC1cur.id = rfpC1prev.id ∧
    (ChangeDetector.detect_changes parseDateNone 0 [rfpC1cur] [rfpC1prev]).map
        ChangeDetector.ChangeRecord.change_type =
      [ChangeDetector.ChangeType.content_update,
       ChangeDetector.ChangeType.status_change] := by
  decide

/-- C1 (amended): for every stored RFP `p` with extracted status "Active",
when the current corpus holds the same RFP `c` with only the status field
updated to "Withdrawn" (via `update_field`, which recomputes the content
hash) and `c` is not closing within 2 days, `detect_changes([c],[p])` returns
exactly one STATUS_CHANGE record — severity CRITICAL, action_required true —
preceded by exactly one CONTENT_UPDATE record for the status field whenever
the stored content hashes differ; only if the hashes coincide is the
STATUS_CHANGE record the unique result. -/
theorem C1_corrected_status_change (parseDate : String → Option Int) (now : Int)
    (p c : RFP)
    (hstat : getField p.extracted_fields "status" = some "Active")
    (hc : c = (RFP.update_field now p "status" "Withdrawn").1)
    (hsoon : c.is_closing_soon parseDate now 2 = false) :
    (c.content_hash ≠ p.content_hash →
      ChangeDetector.detect_changes parseDate now [c] [p] =
        [ChangeDetector.content_update_record now c "status"
          (some "Active") (some "Withdrawn"),
         ChangeDetector.status_change_record now c "Active" "Withdrawn"])
    ∧ (c.content_hash = p.content_hash →
        ChangeDetector.detect_changes parseDate now [c] [p] =
          [ChangeDetector.status_change_record now c "Active" "Withdrawn"])
    ∧ (ChangeDetector.status_change_record now c "Active" "Withdrawn").change_type
        = ChangeDetector.ChangeType.status_change
    ∧ (ChangeDetector.status_change_record now c "Active" "Withdrawn").severity
        = ChangeDetector.ChangeSeverity.critical
    ∧ (ChangeDetector.status_change_record now c "Active" "Withdrawn").action_required
        = true := by
  have hfields : c.extracted_fields = setField p.extracted_fields "status" "Withdrawn" := by
    rw [hc]
    simp [RFP.update_field, hstat, RFP.add_change_record]
  have hcid : c.id = p.id := by
    rw [hc]
    simp [RFP.update_field, hstat, RFP.add_change_record]
  have hccat : c.categories = p.categories := by
    rw [hc]
    simp [RFP.update_field, hstat, RFP.add_change_record]
  have hgetc : getField c.extracted_fields "status" = some "Withdrawn" := by
    rw [hfields]
    exact getField_setField_same _ _ _
  have hgetother : ∀ x, x ≠ "status" →
      getField c.extracted_fields x = getField p.extracted_fields x := by
    intro x hx
    rw [hfields]
    exact getField_setField_other _ _ _ _ hx
  have hfieldcmp : ChangeDetector.compare_extracted_fields now c.extracted_fields
      p.extracted_fields c =
      [ChangeDetector.content_update_record now c "status"
        (some "Active") (some "Withdrawn")] := by
    have hmem2 : "status" ∈
        dedupFirst (fieldKeys c.extracted_fields ++ fieldKeys p.extracted_fields) := by
      rw [mem_dedupFirst]
      exact List.mem_append.mpr (Or.inl (getField_some_mem_keys _ _ _ hgetc))
    rw [ChangeDetector.compare_extracted_fields]
    refine Eq.trans (filterMap_singleton_key _ "status" _ (dedupFirst_nodup _) hmem2 ?_) ?_
    · intro x hx
      simp [hgetother x hx]
    · simp [hgetc, hstat]
  have hcrit : ChangeDetector.check_critical_field_changes parseDate now c p =
      [ChangeDetector.status_change_record now c "Active" "Withdrawn"] := by
    have h1 : getFieldD c.extracted_fields "status" "" = "Withdrawn" := by
      simp [getFieldD, hgetc]
    have h2 : getFieldD p.extracted_fields "status" "" = "Active" := by
      simp [getFieldD, hstat]
    have h3 : getField c.extracted_fields "closing_date" =
        getField p.extracted_fields "closing_date" :=
      hgetother _ (by decide)
    rw [ChangeDetector.check_critical_field_changes]
    simp [h1, h2, h3]
  have hcat : ChangeDetector.sameSet c.categories p.categories = true := by
    rw [hccat]
    exact sameSet_refl _
  have hurg : ChangeDetector.detect_urgent_deadlines parseDate now [c] = [] := by
    simp [ChangeDetector.detect_urgent_deadlines, hsoon]
  have hsev : (["cancelled", "withdrawn", "awarded"].contains (pyLower "Withdrawn")) = true := by
    decide
  refine ⟨?_, ?_, rfl, ?_, rfl⟩
  · intro hhash
    rw [detect_changes_pair parseDate now c p hcid]
    simp [ChangeDetector.compare_rfps, hhash, hfieldcmp, hcrit, hcat, hurg]
  · intro hhash
    rw [detect_changes_pair parseDate now c p hcid]
    simp [ChangeDetector.compare_rfps, hhash, hcrit, hcat, hurg]
  · simp [ChangeDetector.status_change_record, hsev]
    decide

/-- C1 (witness): the amended theorem applied to the concrete scenario
`rfpC1prev` → `rfpC1cur`, discharging every hypothesis by evaluation. -/
theorem C1_witness :
    (rfpC1cur.content_hash ≠ rfpC1prev.content_hash →
      ChangeDetector.detect_changes parseDateNone 0 [rfpC1cur] [rfpC1prev] =
        [ChangeDetector.content_update_record 0 rfpC1cur "status"
          (some "Active") (some "Withdrawn"),
         ChangeDetector.status_change_record 0 rfpC1cur "Active" "Withdrawn"])
    ∧ (rfpC1cur.content_hash = rfpC1prev.content_hash →
        ChangeDetector.detect_changes parseDateNone 0 [rfpC1cur] [rfpC1prev] =
          [ChangeDetector.status_change_record 0 rfpC1cur "Active" "Withdrawn"])
    ∧ (ChangeDetector.status_change_record 0 rfpC1cur "Active" "Withdrawn").change_type
        = ChangeDetector.ChangeType.status_change
    ∧ (ChangeDetector.status_change_record 0 rfpC1cur "Active" "Withdrawn").severity
        = ChangeDetector.ChangeSeverity.critical
    ∧ (ChangeDetector.status_change_record 0 rfpC1cur "Active" "Withdrawn").action_required
        = true :=
  C1_corrected_status_change parseDateNone 0 rfpC1prev rfpC1cur
    (by decide) rfl (by decide)

/-! ## C2: urgent deadlines -/

/-- C2: on every run of `detect_changes`, every RFP of the current corpus
whose parsed closing date lies within 48 hours after `now` contributes an
`URGENT_DEADLINE` record whose severity is CRITICAL if the RFP is
high-priority and HIGH otherwise, with `action_required` set — independent of
the previous corpus, so also when no field changed. -/
theorem C2_urgent_deadline (parseDate : String → Option Int) (now : Int)
    (current_rfps previous_rfps : List RFP) (rfp : RFP)
    (hmem : rfp ∈ current_rfps)
    (s : String) (t : Int)
    (hfield : getField rfp.extracted_fields "closing_date" = some s)
    (hs : s ≠ "")
    (hparse : parseDate s = some t)
    (h0 : 0 ≤ t - now) (h48 : t - now ≤ 172800) :
    ∃ rec ∈ ChangeDetector.detect_changes parseDate now current_rfps previous_rfps,
      rec.change_type = ChangeDetector.ChangeType.urgent_deadline ∧
      rec.rfp_id = rfp.id ∧
      rec.severity = (if rfp.is_high_priority then ChangeDetector.ChangeSeverity.critical
        else ChangeDetector.ChangeSeverity.high) ∧
      rec.action_required = true := by
  have hsoon : rfp.is_closing_soon parseDate now 2 = true := by
    simp only [RFP.is_closing_soon, hfield, hparse, if_neg hs]
    rw [decide_eq_true_eq]
    constructor
    · rw [Int.fdiv_eq_ediv _ (by norm_num : (0 : ℤ) ≤ 86400)]
      exact Int.ediv_nonneg h0 (by norm_num)
    · rw [Int.fdiv_eq_ediv _ (by norm_num : (0 : ℤ) ≤ 86400)]
      calc (t - now) / 86400 ≤ 172800 / 86400 := Int.ediv_le_ediv (by norm_num) h48
        _ = 2 := by norm_num
  refine ⟨ChangeDetector.urgent_deadline_record now rfp, ?_, rfl, rfl, ?_, rfl⟩
  · simp only [ChangeDetector.detect_changes]
    refine List.mem_append.mpr (Or.inr ?_)
    simp only [ChangeDetector.detect_urgent_deadlines]
    exact List.mem_filterMap.mpr ⟨rfp, hmem, by rw [hsoon]; rfl⟩
  · simp only [ChangeDetector.urgent_deadline_record]

/-- C2 (witness): the urgent-deadline theorem applied to a concrete corpus
with one RFP closing 24 hours after `now = 0` and an empty previous
corpus. -/
theorem C2_witness :
    ∃ rec ∈ ChangeDetector.detect_changes parseDateC2 0 [rfpC2] [],
      rec.change_type = ChangeDetector.ChangeType.urgent_deadline ∧
      rec.rfp_id = rfpC2.id ∧
      rec.severity = (if rfpC2.is_high_priority then ChangeDetector.ChangeSeverity.critical
        else ChangeDetector.ChangeSeverity.high) ∧
      rec.action_required = true :=
  C2_urgent_deadline parseDateC2 0 [rfpC2] [] rfpC2 (by decide)
    "2025-01-01T00:00:00" 86400 (by decide) (by decide) (by decide)
    (by decide) (by decide)

/-! ## C4: `SiteConfig.is_healthy` -/

/-- C4 (counterexample): `is_healthy` is not equivalent to the 80%-valid-ratio
test alone.  On a site with one mapping of confidence 0.9 and no validation
errors (so 100% of mappings pass the claim's test) but site status `TESTING`,
`is_healthy()` returns `false` while the claim's ratio predicate holds. -/
theorem C4_counterexample :
    SiteConfig.is_healthy cfgC4x = false ∧ is_healthy_claimC4 cfgC4x = true := by
  constructor
  · simp [SiteConfig.is_healthy, cfgC4x]
  · norm_num [is_healthy_claimC4, cfgC4x, List.filter]

/-- C4 (amended): for every `SiteConfig` with at least one field mapping,
`is_healthy()` returns `true` iff the site status is `ACTIVE` and the number
of field mappings that are valid (confidence_score > 0.5 and an empty
validation-error list) is at least 0.8 of the total, i.e.
`5·valid ≥ 4·total`. -/
theorem C4_corrected_is_healthy (s : SiteConfig) (_h : s.field_mappings ≠ []) :
    SiteConfig.is_healthy s = true ↔
      (s.status = SiteStatus.active ∧
        5 * (s.field_mappings.filter FieldMapping.is_valid).length ≥
          4 * s.field_mappings.length) := by
  unfold SiteConfig.is_healthy
  by_cases hs : s.status = SiteStatus.active
  · rw [if_neg (by simp [hs])]
    rw [decide_eq_true_eq]
    constructor
    · intro h1
      refine ⟨hs, ?_⟩
      rw [ge_iff_le]
      rw [show (0.8 : ℚ) = 4/5 by norm_num] at h1
      have h2 : (4 * (s.field_mappings.length : ℚ)) ≤
          5 * ((s.field_mappings.filter FieldMapping.is_valid).length : ℚ) := by
        linarith
      exact_mod_cast h2
    · rintro ⟨-, h1⟩
      rw [ge_iff_le] at h1
      have h2 : ((4 * s.field_mappings.length : ℕ) : ℚ) ≤
          ((5 * (s.field_mappings.filter FieldMapping.is_valid).length : ℕ) : ℚ) := by
        exact_mod_cast h1
      push_cast at h2
      rw [show (0.8 : ℚ) = 4/5 by norm_num]
      linarith
  · rw [if_pos (by simp [hs])]
    simp [hs]

/-- C4 (witness): the amended characterization applied to a concrete `ACTIVE`
site with 4 of 5 valid mappings, whose `is_healthy()` is `true`. -/
theorem C4_witness :
    cfgC4w.field_mappings ≠ [] ∧
      (SiteConfig.is_healthy cfgC4w = true ↔
        (cfgC4w.status = SiteStatus.active ∧
          5 * (cfgC4w.field_mappings.filter FieldMapping.is_valid).length ≥
            4 * cfgC4w.field_mappings.length)) :=
  ⟨by decide, C4_corrected_is_healthy cfgC4w (by decide)⟩

/-! ## C6 and C7: location binding -/

theorem filterMap_if_eq_map_filter {α β : Type} (p : α → Bool) (g : α → β) (l : List α) :
    l.filterMap (fun m => if p m then some (g m) else none) = (l.filter p).map g := by
  induction l with
  | nil => rfl
  | cons x t ih =>
    by_cases h : p x = true <;>
      simp [List.filterMap_cons, List.filter_cons, h, ih]

theorem filter_flatMap_comm {α β : Type} (l : List α) (f : α → List β) (p : β → Bool) :
    (l.flatMap f).filter p = l.flatMap (fun a => (f a).filter p) := by
  induction l with
  | nil => rfl
  | cons x t ih => simp [List.flatMap_cons, List.filter_append, ih]

theorem map_flatMap_comm {α β γ : Type} (l : List α) (f : α → List β) (g : β → γ) :
    (l.flatMap f).map g = l.flatMap (fun a => (f a).map g) := by
  induction l with
  | nil => rfl
  | cons x t ih => simp [List.flatMap_cons, ih]

theorem calc_confidence_formula (engine : LocationBinder.RegexEngine)
    (c : LocationBinder.ElementCandidate) (t : String) (dt : DataType) :
    LocationBinder.calculate_confidence engine c t dt =
      min (((if pyLower (pyStrip c.text_content) = pyLower (pyStrip t) then (0.8 : ℚ)
             else if strContains (pyLower c.text_content) (pyLower t) then 0.5 else 0)
        + (if (LocationBinder.data_type_patterns dt).any
              (fun pat => engine.search pat c.text_content) then (0.2 : ℚ) else 0))
        + (if LocationBinder.is_stable_selector c.selector then (0.1 : ℚ) else 0)) 1 := by
  simp only [LocationBinder.calculate_confidence]
  split_ifs <;> norm_num [min_def]

theorem calc_confidence_exact_active (engine : LocationBinder.RegexEngine) :
    LocationBinder.calculate_confidence engine (LocationBinder.exact_candidate "Active")
      "Active" DataType.text = 0.9 := by
  rw [calc_confidence_formula]
  rw [if_pos (show pyLower (pyStrip (LocationBinder.exact_candidate "Active").text_content)
    = pyLower (pyStrip "Active") from rfl)]
  rw [if_neg (by simp [LocationBinder.data_type_patterns]), if_pos (by decide)]
  norm_num [min_def]

theorem ffl_ok_eq (engine : LocationBinder.RegexEngine) (html target : String)
    (dt : DataType) (cs : List LocationBinder.ElementCandidate)
    (hok : LocationBinder.find_field_location engine html target dt = Except.ok cs) :
    cs = LocationBinder.filter_and_rank_candidates engine
      (LocationBinder.find_candidates_in_html engine html target dt) target dt := by
  simp only [LocationBinder.find_field_location] at hok
  split at hok
  · exact absurd hok (by simp)
  · rw [Except.ok.injEq] at hok
    exact hok.symm

theorem mem_filter_rank (engine : LocationBinder.RegexEngine) (target : String)
    (dt : DataType) (l : List LocationBinder.ElementCandidate)
    (c : LocationBinder.ElementCandidate)
    (hc : c ∈ LocationBinder.filter_and_rank_candidates engine l target dt) :
    ∃ a ∈ l, (0.3 : ℚ) ≤ LocationBinder.calculate_confidence engine a target dt ∧
      c = { a with
        confidence_score := LocationBinder.calculate_confidence engine a target dt } := by
  simp only [LocationBinder.filter_and_rank_candidates] at hc
  have hc2 := List.mem_of_mem_take hc
  rw [mem_sortLe] at hc2
  rcases List.mem_filterMap.mp hc2 with ⟨a, ha, hfa⟩
  simp only [ge_iff_le] at hfa
  split at hfa
  · refine ⟨a, ha, by assumption, ?_⟩
    rw [Option.some.injEq] at hfa
    exact hfa.symm
  · exact absurd hfa (by simp)

theorem ffl_ok_of_ne_nil (engine : LocationBinder.RegexEngine) (html target : String)
    (dt : DataType)
    (hne : LocationBinder.filter_and_rank_candidates engine
      (LocationBinder.find_candidates_in_html engine html target dt) target dt ≠ []) :
    LocationBinder.find_field_location engine html target dt =
      Except.ok (LocationBinder.filter_and_rank_candidates engine
        (LocationBinder.find_candidates_in_html engine html target dt) target dt) := by
  simp only [LocationBinder.find_field_location]
  rw [if_neg]
  intro hcon
  rw [List.isEmpty_iff] at hcon
  exact hne hcon

theorem filter_rank_ne_nil (engine : LocationBinder.RegexEngine) (target : String)
    (dt : DataType) (l : List LocationBinder.ElementCandidate)
    (a : LocationBinder.ElementCandidate) (ha : a ∈ l)
    (h3 : (0.3 : ℚ) ≤ LocationBinder.calculate_confidence engine a target dt) :
    LocationBinder.filter_and_rank_candidates engine l target dt ≠ [] := by
  simp only [LocationBinder.filter_and_rank_candidates]
  intro hnil
  have hmem : { a with
      confidence_score := LocationBinder.calculate_confidence engine a target dt } ∈
      l.filterMap (fun c =>
        let conf := LocationBinder.calculate_confidence engine c target dt
        if conf ≥ 0.3 then some { c with confidence_score := conf } else none) := by
    refine List.mem_filterMap.mpr ⟨a, ha, ?_⟩
    simp only [ge_iff_le]
    rw [if_pos h3]
  have hpos := List.length_pos_of_mem hmem
  have hlt : 0 < ((sortLe
      (fun a b : LocationBinder.ElementCandidate =>
        decide (b.confidence_score ≤ a.confidence_score))
      (l.filterMap (fun c =>
        let conf := LocationBinder.calculate_confidence engine c target dt
        if conf ≥ 0.3 then some { c with confidence_score := conf } else none))).take
      50).length := by
    rw [List.length_take, length_sortLe]
    omega
  rw [hnil] at hlt
  simp at hlt

/-- C6: every candidate list that `find_field_location` returns consists of
candidates whose confidence is exactly the recomputed score — 0.8 for an
exact (stripped, lowercased) text match, else 0.5 for a substring match,
plus 0.2 when a data-type pattern matches the text and 0.1 when the selector
is stable, capped at 1 — and at least 0.3; the list has at most 50 entries
and is sorted by descending confidence; and on any page containing the text
"Active" (case-insensitively, at least one occurrence) with target "Active",
`find_field_location` succeeds with at least one candidate of confidence
≥ 0.8. -/
theorem C6_confidence_ranking (engine : LocationBinder.RegexEngine)
    (html target : String) (dt : DataType)
    (cs : List LocationBinder.ElementCandidate)
    (hok : LocationBinder.find_field_location engine html target dt = Except.ok cs) :
    (∀ c ∈ cs,
        c.confidence_score =
          min (((if pyLower (pyStrip c.text_content) = pyLower (pyStrip target) then (0.8 : ℚ)
                 else if strContains (pyLower c.text_content) (pyLower target) then 0.5 else 0)
            + (if (LocationBinder.data_type_patterns dt).any
                  (fun pat => engine.search pat c.text_content) then (0.2 : ℚ) else 0))
            + (if LocationBinder.is_stable_selector c.selector then (0.1 : ℚ) else 0)) 1
        ∧ (0.3 : ℚ) ≤ c.confidence_score)
    ∧ cs.length ≤ 50
    ∧ cs.Pairwise (fun a b => b.confidence_score ≤ a.confidence_score)
    ∧ (∀ html2, 1 ≤ LocationBinder.countCI html2 "Active" →
        ∃ cs2, LocationBinder.find_field_location engine html2 "Active" DataType.text
            = Except.ok cs2 ∧ ∃ c ∈ cs2, (0.8 : ℚ) ≤ c.confidence_score) := by
  have hcs := ffl_ok_eq engine html target dt cs hok
  refine ⟨?_, ?_, ?_, ?_⟩
  · intro c hc
    rw [hcs] at hc
    obtain ⟨a, _, h3, hceq⟩ := mem_filter_rank engine target dt _ c hc
    subst hceq
    constructor
    · simpa using calc_confidence_formula engine a target dt
    · exact h3
  · rw [hcs]
    simp only [LocationBinder.filter_and_rank_candidates]
    exact List.length_take_le 50 _
  · rw [hcs]
    simp only [LocationBinder.filter_and_rank_candidates]
    have htrans : ∀ a b c : LocationBinder.ElementCandidate,
        decide (b.confidence_score ≤ a.confidence_score) = true →
        decide (c.confidence_score ≤ b.confidence_score) = true →
        decide (c.confidence_score ≤ a.confidence_score) = true := by
      intro a b c h1 h2
      exact decide_eq_true (le_trans (of_decide_eq_true h2) (of_decide_eq_true h1))
    have htotal : ∀ a b : LocationBinder.ElementCandidate,
        decide (b.confidence_score ≤ a.confidence_score) = true ∨
        decide (a.confidence_score ≤ b.confidence_score) = true := by
      intro a b
      rcases le_total b.confidence_score a.confidence_score with h | h
      · exact Or.inl (decide_eq_true h)
      · exact Or.inr (decide_eq_true h)
    have hp := pairwise_sortLe _ htrans htotal
      ((LocationBinder.find_candidates_in_html engine html target dt).filterMap
        (fun c =>
          let conf := LocationBinder.calculate_confidence engine c target dt
          if conf ≥ 0.3 then some { c with confidence_score := conf } else none))
    have hp2 := hp.imp (fun h => of_decide_eq_true h)
    exact hp2.sublist (List.take_sublist 50 _)
  · intro html2 hcnt
    have hcand : LocationBinder.find_candidates_in_html engine html2 "Active" DataType.text
        = List.replicate (LocationBinder.countCI html2 "Active")
            (LocationBinder.exact_candidate "Active") := by
      simp [LocationBinder.find_candidates_in_html, LocationBinder.data_type_patterns]
    have hconf := calc_confidence_exact_active engine
    have hmemrep : LocationBinder.exact_candidate "Active" ∈
        LocationBinder.find_candidates_in_html engine html2 "Active" DataType.text := by
      rw [hcand]
      exact List.mem_replicate.mpr ⟨by omega, rfl⟩
    have hRne := filter_rank_ne_nil engine "Active" DataType.text _
      (LocationBinder.exact_candidate "Active") hmemrep (by rw [hconf]; norm_num)
    refine ⟨_, ffl_ok_of_ne_nil engine html2 "Active" DataType.text hRne, ?_⟩
    obtain ⟨x, hx⟩ := List.exists_mem_of_ne_nil _ hRne
    refine ⟨x, hx, ?_⟩
    obtain ⟨a, ha, h3, hxeq⟩ := mem_filter_rank engine "Active" DataType.text _ x hx
    rw [hcand] at ha
    have haeq := List.eq_of_mem_replicate ha
    subst haeq
    rw [hxeq]
    simp only [hconf]
    norm_num

theorem ffl_active_eval :
    LocationBinder.find_field_location trivEngine "<div>Active</div>" "Active"
      DataType.text = Except.ok csC6 := by
  have hcount : LocationBinder.countCI "<div>Active</div>" "Active" = 1 := by decide
  have hconf := calc_confidence_exact_active trivEngine
  simp only [LocationBinder.find_field_location, LocationBinder.find_candidates_in_html,
    LocationBinder.filter_and_rank_candidates, LocationBinder.data_type_patterns, hcount]
  norm_num [List.replicate_succ, List.replicate_zero, List.filterMap_cons, hconf,
    sortLe, insertLe, csC6]

/-- C6 (witness): the concrete page `"<div>Active</div>"` with target
`"Active"` — `find_field_location` succeeds with the single exact-match
candidate at confidence 0.9, and the returned list satisfies the cap and the
descending-confidence ordering. -/
theorem C6_witness :
    LocationBinder.find_field_location trivEngine "<div>Active</div>" "Active"
        DataType.text = Except.ok csC6
    ∧ csC6.length ≤ 50
    ∧ csC6.Pairwise (fun a b => b.confidence_score ≤ a.confidence_score) := by
  have hok := ffl_active_eval
  have h := C6_confidence_ranking trivEngine "<div>Active</div>" "Active" DataType.text
    csC6 hok
  exact ⟨hok, h.2.1, h.2.2.1⟩

/-- C7: `_values_are_similar` holds iff both normalized values (lowercased,
non-word characters removed) are non-empty and the shorter is at least 0.6
of the longer (equivalently `3·longer ≤ 5·shorter`); the pattern-phase
candidates of `_find_candidates_in_html` are exactly the pattern matches
that pass this similarity test; and under a syntactically valid selector
whose primary extraction succeeds, `validate_field_mapping` emits the
training-value-divergence warning exactly when the same similarity test
fails on the extracted value vs. the training value. -/
theorem C7_similarity_threshold :
    (∀ v1 v2 : String, LocationBinder.values_are_similar v1 v2 = true ↔
        ((LocationBinder.normalize_value v1).data.length ≠ 0 ∧
         (LocationBinder.normalize_value v2).data.length ≠ 0 ∧
         3 * max (LocationBinder.normalize_value v1).data.length
             (LocationBinder.normalize_value v2).data.length ≤
           5 * min (LocationBinder.normalize_value v1).data.length
             (LocationBinder.normalize_value v2).data.length))
    ∧ (∀ (engine : LocationBinder.RegexEngine) (html target : String) (dt : DataType),
        LocationBinder.find_candidates_in_html engine html target dt =
          List.replicate (LocationBinder.countCI html target)
            (LocationBinder.exact_candidate target)
          ++ (((LocationBinder.data_type_patterns dt).flatMap
                (fun pat => engine.finditer pat html)).filter
              (fun m => LocationBinder.values_are_similar m target)).map
            LocationBinder.pattern_candidate)
    ∧ (∀ (engine : LocationBinder.RegexEngine)
        (extractVal : String → String → DataType → Option String)
        (m : FieldMapping) (page v : String),
        (validate_css_selector m.selector).is_valid = true →
        extractVal page m.selector m.data_type = some v →
        (LocationBinder.validate_field_mapping engine extractVal m page).warnings =
          (validate_css_selector m.selector).warnings
          ++ (if LocationBinder.validate_extracted_value engine v m.data_type then []
              else [LocationBinder.format_warning v])
          ++ (if LocationBinder.values_are_similar v m.training_value then []
              else [LocationBinder.divergence_warning v m.training_value])) := by
  refine ⟨?_, ?_, ?_⟩
  · intro v1 v2
    simp only [LocationBinder.values_are_similar]
    by_cases h : (LocationBinder.normalize_value v1).data.length = 0 ∨
        (LocationBinder.normalize_value v2).data.length = 0
    · rw [if_pos h]
      constructor
      · intro hh
        exact absurd hh (by simp)
      · rintro ⟨h1, h2, -⟩
        rcases h with h | h
        · exact absurd h h1
        · exact absurd h h2
    · rw [if_neg h, decide_eq_true_eq]
      push_neg at h
      obtain ⟨h1, h2⟩ := h
      have hmaxpos : 0 < max (LocationBinder.normalize_value v1).data.length
          (LocationBinder.normalize_value v2).data.length := by omega
      constructor
      · intro hle
        refine ⟨h1, h2, ?_⟩
        rw [ge_iff_le, le_div_iff₀ (by exact_mod_cast hmaxpos)] at hle
        have h35 : (3 : ℚ) * (max (LocationBinder.normalize_value v1).data.length
            (LocationBinder.normalize_value v2).data.length : ℕ) ≤
            5 * (min (LocationBinder.normalize_value v1).data.length
              (LocationBinder.normalize_value v2).data.length : ℕ) := by
          linarith
        exact_mod_cast h35
      · rintro ⟨-, -, h3⟩
        rw [ge_iff_le, le_div_iff₀ (by exact_mod_cast hmaxpos)]
        have h35 : (3 : ℚ) * (max (LocationBinder.normalize_value v1).data.length
            (LocationBinder.normalize_value v2).data.length : ℕ) ≤
            5 * (min (LocationBinder.normalize_value v1).data.length
              (LocationBinder.normalize_value v2).data.length : ℕ) := by
          exact_mod_cast h3
        linarith
  · intro engine html target dt
    simp only [LocationBinder.find_candidates_in_html]
    congr 1
    rw [filter_flatMap_comm, map_flatMap_comm]
    simp only [filterMap_if_eq_map_filter]
  · intro engine extractVal m page v hvalid hext
    simp only [LocationBinder.validate_field_mapping]
    have hiv : (ValidationResult.merge {} (validate_css_selector m.selector)).is_valid
        = true := by
      simp [ValidationResult.merge, hvalid]
    rw [if_neg (by simp [hiv])]
    rw [hext]
    by_cases hv : LocationBinder.validate_extracted_value engine v m.data_type = true <;>
      by_cases hs : LocationBinder.values_are_similar v m.training_value = true <;>
        simp [hv, hs, ValidationResult.add_warning, ValidationResult.merge]

/-- C7 (witness): the concrete mapping `mC7` (valid selector `.rfp-status`,
training value "Request for Proposals 2028") with an extractor resolving the
primary selector to "Active": the warning list is the CSS warnings plus the
format/divergence warnings as decided by the similarity test. -/
theorem C7_witness :
    (validate_css_selector mC7.selector).is_valid = true
    ∧ extC7 "<html>" mC7.selector mC7.data_type = some "Active"
    ∧ (LocationBinder.validate_field_mapping trivEngine extC7 mC7 "<html>").warnings =
        (validate_css_selector mC7.selector).warnings
        ++ (if LocationBinder.validate_extracted_value trivEngine "Active" mC7.data_type
            then [] else [LocationBinder.format_warning "Active"])
        ++ (if LocationBinder.values_are_similar "Active" mC7.training_value then []
            else [LocationBinder.divergence_warning "Active" mC7.training_value]) := by
  refine ⟨by decide, rfl, ?_⟩
  exact C7_similarity_threshold.2.2 trivEngine extC7 mC7 "<html>" "Active" (by decide) rfl

end GovOversight
